import Mathlib

/-!
Verification development for the glonass ingestion pipeline
(`glonass_api_client.py`, `glonass_schemas.py`).

The Python code is shallowly embedded: SQL values become the inductive
type `Val`, a row (a Python dict headed for one table) becomes an
association list `Row`, a table becomes a list of rows, and the effect of
the SQL statements generated by `insert_data` is modelled by executable
functions over tables (`INSERT OR REPLACE` for SQLite, `INSERT ... ON
CONFLICT` for PostgreSQL).  The HTTP layer (`make_api_request`) is
embedded with the server's behaviour supplied as an oracle from attempt
number to response.
-/

set_option maxHeartbeats 1000000

/-- A SQL-storable value, as produced by the client when it builds a row
dict: Python `None` (`null`), `int`, `float` (modelled as `ℚ`; the
client never computes with these, it only stores them), `str`, `bool`. -/
inductive Val where
  | null
  | int (n : Int)
  | num (q : ℚ)
  | str (s : String)
  | bool (b : Bool)
deriving DecidableEq, Repr

/-- A row dict: insertion-ordered association list from column name to value. -/
abbrev Row := List (String × Val)

/-- A database table: list of stored rows. -/
abbrev Table := List Row

/-- `d[c]`-style lookup on a row dict (first matching key). -/
def getCol : Row → String → Option Val
  | [], _ => none
  | (k, v) :: r, c => if k = c then some v else getCol r c

/-- Python dict assignment `d[k] = v`: replaces the value in place when the
key exists (keys of a dict are unique, so replacing the first occurrence is
exact), otherwise appends the new key at the end. -/
def setCol : Row → String → Val → Row
  | [], k, v => [(k, v)]
  | (k', v') :: r, k, v => if k' = k then (k, v) :: r else (k', v') :: setCol r k v

/-- Removal part of Python `d.pop(k, None)`: drops the entry for key `k`
(rows built from dicts have unique keys). -/
def eraseCol : Row → String → Row
  | [], _ => []
  | (k', v') :: r, k => if k' = k then r else (k', v') :: eraseCol r k

/-- Keys of a row dict, in order. -/
def rowKeys (r : Row) : List String := r.map Prod.fst

@[simp] theorem getCol_nil (c : String) : getCol [] c = none := rfl

theorem getCol_cons (k : String) (v : Val) (r : Row) (c : String) :
    getCol ((k, v) :: r) c = if k = c then some v else getCol r c := rfl

theorem getCol_append (r₁ r₂ : Row) (c : String) :
    getCol (r₁ ++ r₂) c = (getCol r₁ c).orElse (fun _ => getCol r₂ c) := by
  induction r₁ with
  | nil => simp
  | cons hd tl ih =>
    obtain ⟨k, v⟩ := hd
    by_cases h : k = c <;> simp [getCol_cons, h, ih]

theorem getCol_setCol (r : Row) (k : String) (v : Val) (c : String) :
    getCol (setCol r k v) c = if k = c then some v else getCol r c := by
  induction r with
  | nil => simp [setCol, getCol_cons]
  | cons hd tl ih =>
    obtain ⟨a, b⟩ := hd
    by_cases hak : a = k
    · subst hak
      by_cases hc : a = c <;> simp [setCol, getCol_cons, hc]
    · by_cases hac : a = c
      · subst hac
        have hkc : ¬ k = a := fun h => hak h.symm
        simp [setCol, hak, getCol_cons, hkc]
      · simp only [setCol, if_neg hak, getCol_cons, if_neg hac, ih]

theorem mem_rowKeys_iff_getCol (r : Row) (c : String) :
    c ∈ rowKeys r ↔ (getCol r c).isSome := by
  induction r with
  | nil => simp [rowKeys]
  | cons hd tl ih =>
    obtain ⟨a, b⟩ := hd
    by_cases hac : a = c
    · subst hac
      simp [rowKeys, getCol_cons]
    · have : ¬ c = a := fun h => hac h.symm
      simp [rowKeys, getCol_cons, hac, this, ← ih]

theorem getCol_eq_none_of_not_mem (r : Row) (c : String) (h : c ∉ rowKeys r) :
    getCol r c = none := by
  cases hg : getCol r c with
  | none => rfl
  | some w =>
    exact absurd ((mem_rowKeys_iff_getCol r c).mpr (by simp [hg])) h

theorem getCol_eraseCol_of_nodup (r : Row) (k : String) (c : String)
    (hnd : (rowKeys r).Nodup) :
    getCol (eraseCol r k) c = if k = c then none else getCol r c := by
  induction r with
  | nil => by_cases h : k = c <;> simp [eraseCol, h]
  | cons hd tl ih =>
    obtain ⟨a, b⟩ := hd
    simp only [rowKeys, List.map_cons, List.nodup_cons] at hnd
    obtain ⟨hnotin, hnd'⟩ := hnd
    have ih' := ih hnd'
    by_cases hak : a = k
    · subst hak
      by_cases hc : a = c
      · subst hc
        have hz : getCol tl a = none :=
          getCol_eq_none_of_not_mem tl a (by simpa [rowKeys] using hnotin)
        simp [eraseCol, getCol_cons, hz]
      · simp [eraseCol, getCol_cons, hc]
    · by_cases hac : a = c
      · subst hac
        have hkc : ¬ k = a := fun h => hak h.symm
        simp [eraseCol, hak, getCol_cons, hkc]
      · simp [eraseCol, hak, getCol_cons, hac, ih']

theorem mem_rowKeys_setCol (r : Row) (k : String) (v : Val) (c : String) :
    c ∈ rowKeys (setCol r k v) ↔ c ∈ rowKeys r ∨ c = k := by
  induction r with
  | nil => simp [setCol, rowKeys]
  | cons hd tl ih =>
    obtain ⟨a, b⟩ := hd
    by_cases hak : a = k
    · subst hak
      have hs : setCol ((a, b) :: tl) a v = (a, v) :: tl := by simp [setCol]
      rw [hs]
      simp only [rowKeys, List.map_cons, List.mem_cons]
      tauto
    · simp only [setCol, if_neg hak, rowKeys, List.map_cons, List.mem_cons]
      have ih' : c ∈ List.map Prod.fst (setCol tl k v) ↔
          c ∈ List.map Prod.fst tl ∨ c = k := ih
      rw [ih']
      tauto

theorem nodup_rowKeys_setCol (r : Row) (k : String) (v : Val)
    (h : (rowKeys r).Nodup) : (rowKeys (setCol r k v)).Nodup := by
  induction r with
  | nil => simp [setCol, rowKeys]
  | cons hd tl ih =>
    obtain ⟨a, b⟩ := hd
    simp only [rowKeys, List.map_cons, List.nodup_cons] at h
    obtain ⟨hnotin, hnd⟩ := h
    by_cases hak : a = k
    · subst hak
      have hs : setCol ((a, b) :: tl) a v = (a, v) :: tl := by simp [setCol]
      rw [hs]
      simp only [rowKeys, List.map_cons, List.nodup_cons]
      exact ⟨hnotin, hnd⟩
    · simp only [setCol, if_neg hak, rowKeys, List.map_cons, List.nodup_cons]
      refine ⟨?_, ih hnd⟩
      intro hmem
      rcases (mem_rowKeys_setCol tl k v a).mp hmem with h | h
      · exact hnotin h
      · exact hak h

theorem getCol_isSome_mem (r : Row) (c : String) (v : Val)
    (h : getCol r c = some v) : (c, v) ∈ r := by
  induction r with
  | nil => simp [getCol] at h
  | cons hd tl ih =>
    obtain ⟨a, b⟩ := hd
    rw [getCol_cons] at h
    by_cases hac : a = c
    · rw [if_pos hac] at h
      exact List.mem_cons.mpr (Or.inl (by cases h; rw [hac]))
    · rw [if_neg hac] at h
      exact List.mem_cons.mpr (Or.inr (ih h))

/-! ## Upsert store: `insert_data` (glonass_api_client.py lines 334-449)

`insert_data` builds and executes one SQL statement per record.  The
statement's effect on the target table is modelled directly:
`INSERT OR REPLACE` for SQLite and `INSERT ... ON CONFLICT (...) DO
UPDATE / DO NOTHING` for PostgreSQL.  A failing execute is modelled by the
`execFails` oracle; the `try/except` around execute/commit becomes a
`match` on the fallible core, and the whole function returns
`Except String InsertOutcome` so that "an exception escapes to the
caller" is representable (as `.error`). -/

/-- The per-table natural-key map used for `ON CONFLICT` on the
PostgreSQL path (`unique_cols_map` in `insert_data`). -/
def unique_cols_map : String → Option (List String)
  | "device_types" => some ["deviceTypeId"]
  | "sensor_types" => some ["id"]
  | "drivers" => some ["id"]
  | "vehicle_details" => some ["vehicleId"]
  | "vehicle_custom_fields_detail" => some ["vehicleId", "custom_field_id"]
  | "vehicle_sensors_detail" => some ["vehicleId", "sensor_id"]
  | "vehicle_drivers_assigned" => some ["vehicleId", "driver_id"]
  | "vehicle_status_history_items" =>
      some ["vehicleId", "date", "status", "description", "additionalInfo"]
  | "vehicle_cmsv6_params" => some ["vehicleId"]
  | "vehicle_command_templates" => some ["vehicleId", "command_template_id"]
  | "vehicle_inspection_tasks" => some ["vehicleId", "task_id"]
  | "last_data" => some ["vehicleId"]
  | "mileage_motohours" => some ["vehicleId", "period_start", "period_end"]
  | "fuel_consumption" => some ["vehicleId", "period_start", "period_end"]
  | "fuel_events" => some ["vehicleId", "event_startDate", "event_type"]
  | "move_events" => some ["vehicleId", "event_start", "eventId"]
  | "stop_events" => some ["vehicleId", "event_start", "eventId"]
  | _ => none

/-- The uniqueness constraints declared by `create_tables` for each table
(PRIMARY KEY and UNIQUE clauses); these are what `INSERT OR REPLACE`
conflicts against on the SQLite path.  The surrogate AUTOINCREMENT id
columns are omitted: inserted records never carry them, and freshly
assigned ids never collide. -/
def sqliteUniqueConstraints : String → List (List String)
  | "device_types" => [["deviceTypeId"]]
  | "sensor_types" => [["id"], ["name"]]
  | "drivers" => [["id"]]
  | "vehicle_details" => [["vehicleId"]]
  | "vehicle_custom_fields_detail" => [["vehicleId", "custom_field_id"]]
  | "vehicle_sensors_detail" => [["vehicleId", "sensor_id"]]
  | "vehicle_drivers_assigned" => [["vehicleId", "driver_id"]]
  | "vehicle_status_history_items" =>
      [["vehicleId", "date", "status", "description", "additionalInfo"]]
  | "vehicle_cmsv6_params" => [["vehicleId"]]
  | "vehicle_command_templates" => [["vehicleId", "command_template_id"]]
  | "vehicle_inspection_tasks" => [["vehicleId", "task_id"]]
  | "last_data" => [["vehicleId"]]
  | "mileage_motohours" => [["vehicleId", "period_start", "period_end"]]
  | "fuel_consumption" => [["vehicleId", "period_start", "period_end"]]
  | "fuel_events" => [["vehicleId", "event_startDate", "event_type"]]
  | "move_events" => [["vehicleId", "event_start", "eventId"]]
  | "stop_events" => [["vehicleId", "event_start", "eventId"]]
  | _ => []

/-- SQL conflict test between an incoming row and a stored row on a set of
columns: every column must hold equal non-NULL values on both sides (in
both SQLite and PostgreSQL, NULLs never trigger a unique-constraint
conflict; a column absent from a row dict is stored as NULL). -/
def colsConflict (newRow oldRow : Row) (cols : List String) : Bool :=
  cols.all (fun c =>
    match getCol newRow c, getCol oldRow c with
    | some v, some w => v ≠ Val.null && w ≠ Val.null && v = w
    | _, _ => false)

/-- Whether a stored row conflicts with the incoming row on any of the
table's uniqueness constraints. -/
def rowViolates (constraints : List (List String)) (newRow oldRow : Row) : Bool :=
  constraints.any (fun cols => colsConflict newRow oldRow cols)

/-- SQLite `INSERT OR REPLACE`: delete every stored row that conflicts with
the incoming row on some uniqueness constraint, then insert the new row. -/
def sqliteInsertOrReplace (constraints : List (List String)) (t : Table) (r : Row) :
    Table :=
  (t.filter (fun old => ¬ rowViolates constraints r old)) ++ [r]

/-- PostgreSQL `DO UPDATE SET k = EXCLUDED.k` over all non-key columns of
the incoming row, applied to the conflicting stored row. -/
def pgUpdateRow (uniqueCols : List String) (oldRow newRow : Row) : Row :=
  newRow.foldl (fun acc kv => if kv.1 ∈ uniqueCols then acc else setCol acc kv.1 kv.2)
    oldRow

/-- PostgreSQL `INSERT ... ON CONFLICT (cols) DO UPDATE SET ...`. -/
def pgInsertOnConflictDoUpdate (uniqueCols : List String) (t : Table) (r : Row) :
    Table :=
  if t.any (fun old => colsConflict r old uniqueCols) then
    t.map (fun old =>
      if colsConflict r old uniqueCols then pgUpdateRow uniqueCols old r else old)
  else
    t ++ [r]

/-- PostgreSQL `INSERT ... ON CONFLICT (cols) DO NOTHING` (generated when
the record has no non-key columns to update). -/
def pgInsertOnConflictDoNothing (uniqueCols : List String) (t : Table) (r : Row) :
    Table :=
  if t.any (fun old => colsConflict r old uniqueCols) then t else t ++ [r]

/-- Effect on the target table of the single SQL statement `insert_data`
builds for a record (the record already carries `retrieved_at`). -/
def applyInsert (isSqlite : Bool) (tableName : String) (t : Table) (dataCopy : Row) :
    Table :=
  if isSqlite then
    sqliteInsertOrReplace (sqliteUniqueConstraints tableName) t dataCopy
  else
    match unique_cols_map tableName with
    | some uniqueCols =>
        -- update_set_parts: the non-key columns of the record
        if (dataCopy.filter (fun kv => kv.1 ∉ uniqueCols)).isEmpty then
          pgInsertOnConflictDoNothing uniqueCols t dataCopy
        else
          pgInsertOnConflictDoUpdate uniqueCols t dataCopy
    | none =>
        -- plain INSERT with a logged duplication warning
        t ++ [dataCopy]

/-- The fallible execute/commit step inside `insert_data`'s `try` block:
either the statement applies, or the driver raises. -/
def executeInsert (isSqlite : Bool) (execFails : Bool) (tableName : String)
    (t : Table) (dataCopy : Row) : Except String Table :=
  if execFails then .error "database error"
  else .ok (applyInsert isSqlite tableName t dataCopy)

/-- Result of one `insert_data` call: the target table afterwards and the
caller's record dict as it stands after the call. -/
structure InsertOutcome where
  table : Table
  callerData : Row
deriving DecidableEq, Repr

/-- `insert_data(conn, table_name, data)` (lines 334-449).  Guard: `if not
conn or not data: return`.  Then `data_copy = data.copy()`;
`data_copy["retrieved_at"] = ...now...` (the copy is stamped, the caller's
dict is untouched); the dialect-specific statement is built and executed
inside `try`, and `except Exception` catches any failure, logs it, and on
the PostgreSQL path rolls the transaction back (restoring the pre-call
table).  An `.error` result would mean an exception escaped to the
caller. -/
def insert_data (isSqlite connPresent execFails : Bool) (tableName : String)
    (t : Table) (data : Row) (now : String) : Except String InsertOutcome :=
  if ¬ connPresent ∨ data.isEmpty then .ok ⟨t, data⟩
  else
    let dataCopy := setCol data "retrieved_at" (Val.str now)
    match executeInsert isSqlite execFails tableName t dataCopy with
    | .ok t' => .ok ⟨t', data⟩
    | .error _ =>
        -- except-handler: log the offending row; `if not is_sqlite: conn.rollback()`
        -- (the failed statement itself changed nothing; on PostgreSQL the rollback
        -- ends the transaction with the table as it was before the call)
        .ok ⟨t, data⟩

theorem getCol_pgUpdateRow (u : List String) (oldRow newRow : Row) (c : String)
    (hnd : (rowKeys newRow).Nodup) :
    getCol (pgUpdateRow u oldRow newRow) c =
      if c ∉ u ∧ (getCol newRow c).isSome then getCol newRow c
      else getCol oldRow c := by
  induction newRow generalizing oldRow with
  | nil => simp [pgUpdateRow]
  | cons hd rest ih =>
    obtain ⟨k, v⟩ := hd
    simp only [rowKeys, List.map_cons, List.nodup_cons] at hnd
    obtain ⟨hknotin, hnd'⟩ := hnd
    have step : pgUpdateRow u oldRow ((k, v) :: rest) =
        pgUpdateRow u (if k ∈ u then oldRow else setCol oldRow k v) rest := by
      simp only [pgUpdateRow, List.foldl_cons]
    rw [step, ih _ hnd']
    by_cases hkc : k = c
    · subst hkc
      have hrest : getCol rest k = none :=
        getCol_eq_none_of_not_mem rest k (by simpa [rowKeys] using hknotin)
      rw [getCol_cons, if_pos rfl]
      by_cases hku : k ∈ u
      · simp [hrest, hku]
      · simp [hrest, hku, getCol_setCol]
    · rw [getCol_cons, if_neg hkc]
      have hold : getCol (if k ∈ u then oldRow else setCol oldRow k v) c =
          getCol oldRow c := by
        by_cases hku : k ∈ u
        · rw [if_pos hku]
        · rw [if_neg hku, getCol_setCol, if_neg hkc]
      rw [hold]

theorem colsConflict_setCol_retrieved (data : Row) (keys : List String)
    (now₁ now₂ : String)
    (hra : "retrieved_at" ∉ keys)
    (hvals : ∀ c ∈ keys, ∃ v, getCol data c = some v ∧ v ≠ Val.null) :
    colsConflict (setCol data "retrieved_at" (Val.str now₂))
      (setCol data "retrieved_at" (Val.str now₁)) keys = true := by
  rw [colsConflict, List.all_eq_true]
  intro c hc
  have hcra : ¬ "retrieved_at" = c := fun h => hra (h ▸ hc)
  obtain ⟨v, hv, hvn⟩ := hvals c hc
  rw [getCol_setCol, if_neg hcra, getCol_setCol, if_neg hcra, hv]
  simp [hvn]

theorem updateCols_nonempty (data : Row) (keys : List String) (now : String)
    (hra : "retrieved_at" ∉ keys) :
    ((setCol data "retrieved_at" (Val.str now)).filter
      (fun kv => kv.1 ∉ keys)).isEmpty = false := by
  have hmem : ("retrieved_at", Val.str now) ∈ setCol data "retrieved_at" (Val.str now) :=
    getCol_isSome_mem _ _ _ (by rw [getCol_setCol, if_pos rfl])
  have hfmem : ("retrieved_at", Val.str now) ∈
      (setCol data "retrieved_at" (Val.str now)).filter (fun kv => kv.1 ∉ keys) :=
    List.mem_filter.mpr ⟨hmem, by simpa using hra⟩
  cases hfe : (setCol data "retrieved_at" (Val.str now)).filter (fun kv => kv.1 ∉ keys) with
  | nil => rw [hfe] at hfmem; simp at hfmem
  | cons hd tl => rfl

/-- C1: each single upsert through `insert_data` stamps `retrieved_at`;
re-writing a record with the same natural-key values leaves exactly one
row whose non-key columns are the second write's, in both dialect paths. -/
theorem insert_data_same_key_twice
    (isSqlite : Bool) (tableName : String) (keys : List String) (data : Row)
    (now₁ now₂ : String)
    (hmap : unique_cols_map tableName = some keys)
    (hcs : keys ∈ sqliteUniqueConstraints tableName)
    (hkne : keys ≠ [])
    (hra : "retrieved_at" ∉ keys)
    (hnd : (rowKeys data).Nodup)
    (hvals : ∀ c ∈ keys, ∃ v, getCol data c = some v ∧ v ≠ Val.null) :
    ∃ o₁ o₂ : InsertOutcome,
      insert_data isSqlite true false tableName [] data now₁ = .ok o₁ ∧
      o₁.table = [setCol data "retrieved_at" (Val.str now₁)] ∧
      insert_data isSqlite true false tableName o₁.table data now₂ = .ok o₂ ∧
      ∃ r : Row, o₂.table = [r] ∧
        (∀ c, getCol r c = getCol (setCol data "retrieved_at" (Val.str now₂)) c) ∧
        getCol r "retrieved_at" = some (Val.str now₂) := by
  -- the record is nonempty (it carries its key columns)
  obtain ⟨c₀, hc₀⟩ := List.exists_mem_of_ne_nil keys hkne
  obtain ⟨v₀, hv₀, _⟩ := hvals c₀ hc₀
  have hne : data.isEmpty = false := by
    cases data with
    | nil => rw [getCol_nil] at hv₀; cases hv₀
    | cons hd tl => rfl
  set dc₁ := setCol data "retrieved_at" (Val.str now₁) with hdc₁
  set dc₂ := setCol data "retrieved_at" (Val.str now₂) with hdc₂
  have happly₁ : applyInsert isSqlite tableName [] dc₁ = [dc₁] := by
    cases isSqlite with
    | true => simp [applyInsert, sqliteInsertOrReplace]
    | false =>
      have hupd₁ : (dc₁.filter (fun kv => kv.1 ∉ keys)).isEmpty = false := by
        rw [hdc₁]; exact updateCols_nonempty data keys now₁ hra
      rw [applyInsert]
      simp only [Bool.false_eq_true, if_false, hmap]
      rw [if_neg (by rw [hupd₁]; simp)]
      simp [pgInsertOnConflictDoUpdate]
  have hconf : colsConflict dc₂ dc₁ keys = true :=
    colsConflict_setCol_retrieved data keys now₁ now₂ hra hvals
  have happly₂ : ∃ r : Row, applyInsert isSqlite tableName [dc₁] dc₂ = [r] ∧
      (∀ c, getCol r c = getCol dc₂ c) := by
    cases isSqlite with
    | true =>
      refine ⟨dc₂, ?_, fun c => rfl⟩
      rw [applyInsert]
      simp only [if_true]
      have hviol : rowViolates (sqliteUniqueConstraints tableName) dc₂ dc₁ = true :=
        List.any_eq_true.mpr ⟨keys, hcs, hconf⟩
      simp [sqliteInsertOrReplace, hviol]
    | false =>
      refine ⟨pgUpdateRow keys dc₁ dc₂, ?_, ?_⟩
      · have hupd₂ : (dc₂.filter (fun kv => kv.1 ∉ keys)).isEmpty = false := by
          rw [hdc₂]; exact updateCols_nonempty data keys now₂ hra
        rw [applyInsert]
        simp only [Bool.false_eq_true, if_false, hmap]
        rw [if_neg (by rw [hupd₂]; simp)]
        rw [pgInsertOnConflictDoUpdate, if_pos (by simp [hconf])]
        simp [hconf]
      · intro c
        have hnd₂ : (rowKeys dc₂).Nodup := nodup_rowKeys_setCol data _ _ hnd
        rw [getCol_pgUpdateRow keys dc₁ dc₂ c hnd₂]
        by_cases hcond : c ∉ keys ∧ (getCol dc₂ c).isSome
        · rw [if_pos hcond]
        · rw [if_neg hcond]
          rcases Decidable.not_and_iff_or_not.mp hcond with hck | hsome
          · have hck' : c ∈ keys := Decidable.not_not.mp hck
            have hcra : ¬ "retrieved_at" = c := fun h => hra (h ▸ hck')
            rw [hdc₁, hdc₂, getCol_setCol, getCol_setCol, if_neg hcra, if_neg hcra]
          · have hnone : getCol dc₂ c = none := by
              cases hg : getCol dc₂ c with
              | none => rfl
              | some w => rw [hg] at hsome; simp at hsome
            have hcra : ¬ "retrieved_at" = c := by
              intro h
              rw [hdc₂, getCol_setCol, if_pos h] at hnone
              cases hnone
            rw [hnone, hdc₁, getCol_setCol, if_neg hcra]
            rw [hdc₂, getCol_setCol, if_neg hcra] at hnone
            exact hnone
  obtain ⟨r, hr, hrc⟩ := happly₂
  refine ⟨⟨[dc₁], data⟩, ⟨[r], data⟩, ?_, rfl, ?_, r, rfl, hrc, ?_⟩
  · rw [insert_data, if_neg (by simp [hne])]
    simp only [executeInsert, Bool.false_eq_true, if_false]
    rw [← hdc₁, happly₁]
  · rw [insert_data, if_neg (by simp [hne])]
    simp only [executeInsert, Bool.false_eq_true, if_false]
    rw [← hdc₂, hr]
  · rw [hrc "retrieved_at", hdc₂, getCol_setCol, if_pos rfl]

/-- C1 witness: the `drivers` table, record `{id: "d1", name: "Ivan"}`,
written twice on each dialect path. -/
theorem insert_data_same_key_twice_witness :
    (∃ o₁ o₂ : InsertOutcome,
      insert_data true true false "drivers" []
        [("id", Val.str "d1"), ("name", Val.str "Ivan")] "t1" = .ok o₁ ∧
      o₁.table = [setCol [("id", Val.str "d1"), ("name", Val.str "Ivan")]
        "retrieved_at" (Val.str "t1")] ∧
      insert_data true true false "drivers" o₁.table
        [("id", Val.str "d1"), ("name", Val.str "Ivan")] "t2" = .ok o₂ ∧
      ∃ r : Row, o₂.table = [r] ∧
        (∀ c, getCol r c = getCol (setCol [("id", Val.str "d1"),
          ("name", Val.str "Ivan")] "retrieved_at" (Val.str "t2")) c) ∧
        getCol r "retrieved_at" = some (Val.str "t2")) ∧
    (∃ o₁ o₂ : InsertOutcome,
      insert_data false true false "drivers" []
        [("id", Val.str "d1"), ("name", Val.str "Ivan")] "t1" = .ok o₁ ∧
      o₁.table = [setCol [("id", Val.str "d1"), ("name", Val.str "Ivan")]
        "retrieved_at" (Val.str "t1")] ∧
      insert_data false true false "drivers" o₁.table
        [("id", Val.str "d1"), ("name", Val.str "Ivan")] "t2" = .ok o₂ ∧
      ∃ r : Row, o₂.table = [r] ∧
        (∀ c, getCol r c = getCol (setCol [("id", Val.str "d1"),
          ("name", Val.str "Ivan")] "retrieved_at" (Val.str "t2")) c) ∧
        getCol r "retrieved_at" = some (Val.str "t2")) := by
  constructor
  · exact insert_data_same_key_twice true "drivers" ["id"]
      [("id", Val.str "d1"), ("name", Val.str "Ivan")] "t1" "t2" rfl
      (by decide) (by decide) (by decide) (by decide)
      (fun c hc => by
        simp only [List.mem_singleton] at hc
        subst hc
        exact ⟨Val.str "d1", rfl, by decide⟩)
  · exact insert_data_same_key_twice false "drivers" ["id"]
      [("id", Val.str "d1"), ("name", Val.str "Ivan")] "t1" "t2" rfl
      (by decide) (by decide) (by decide) (by decide)
      (fun c hc => by
        simp only [List.mem_singleton] at hc
        subst hc
        exact ⟨Val.str "d1", rfl, by decide⟩)

/-! ## Request executor: `make_api_request` (glonass_api_client.py lines 462-571)

The server is an oracle from attempt number (the `current_retries`
argument of the recursive call chain) to a response class: a decoded
2xx body, an `HTTPError` (with status and optional `Retry-After` header),
a timeout, or another request exception.  Pydantic model validation is a
parameter `Json → Except String α` (one per model class). -/

/-- Decoded JSON, as handed to the validation layer. -/
inductive Json where
  | null
  | bool (b : Bool)
  | int (n : Int)
  | num (q : ℚ)
  | str (s : String)
  | arr (items : List Json)
  | obj (fields : List (String × Json))

def Json.isNull : Json → Bool
  | .null => true
  | _ => false

def Json.isArr : Json → Bool
  | .arr _ => true
  | _ => false

/-- What `make_api_request` can hand back to its caller (Python
`Optional[Union[model, List[model], dict, list, str]]`; `None` is the
`none` of the surrounding `Option`). -/
inductive ApiValue (α : Type) where
  | raw (j : Json)
  | one (a : α)
  | many (l : List α)

/-- One server interaction, as classified by the `except` arms of
`make_api_request`. -/
inductive ApiResponse where
  | success (body : Json)
  | httpError (status : Nat) (retryAfter : Option String)
  | timeout
  | requestError

/-- Python `return raw_response_data`: a decoded JSON `null` is Python
`None`, which the caller cannot tell apart from a failure. -/
def pyRaw {α : Type} (j : Json) : Option (ApiValue α) :=
  if j.isNull then none else some (.raw j)

/-- The list comprehension
`[response_list_model.model_validate(item) for item in raw_response_data]`:
items are validated left to right and the first `ValidationError` aborts
the whole comprehension. -/
def validateAll {α : Type} (f : Json → Except String α) :
    List Json → Except String (List α)
  | [] => .ok []
  | item :: rest =>
    match f item with
    | .ok a =>
      match validateAll f rest with
      | .ok l => .ok (a :: l)
      | .error e => .error e
    | .error e => .error e

/-- Validation section of `make_api_request` (lines 492-538) applied to a
decoded body.  Returns the value handed back to the caller plus whether
the shape-mismatch error (`"Ожидался список..."`, lines 510-514) was
logged. -/
def validateResponse {α : Type} (raw : Json)
    (response_model response_list_model : Option (Json → Except String α)) :
    Option (ApiValue α) × Bool :=
  if !raw.isNull && (response_model.isSome || response_list_model.isSome) then
    match response_list_model with
    | some f =>
      match raw with
      | .arr items =>
        match validateAll f items with
        | .ok l => (some (.many l), false)
        | .error _ => (none, false)      -- ValidationError: return None
      | _ => (none, true)                -- expected a list: log error, return None
    | none =>
      match response_model with
      | some f =>
        match f raw with
        | .ok a => (some (.one a), false)
        | .error _ => (none, false)
      | none => (pyRaw raw, false)
  else
    (pyRaw raw, false)

def MAX_RETRIES : Nat := 5

def RETRY_DELAY_BASE_SECONDS : Nat := 10

/-- Python `str.isdigit`: nonempty and all digit characters. -/
def pyIsDigit (s : String) : Bool := !s.isEmpty && s.all Char.isDigit

/-- Backoff computation of the 429 arm (lines 544-547):
`wait_time = RETRY_DELAY_BASE_SECONDS * (2 ** current_retries)`, raised to
`max(wait_time, int(header))` when a digit-only `Retry-After` header is
present. -/
def waitTimeFor (current_retries : Nat) (retryAfterHeader : Option String) : Nat :=
  let wait_time := RETRY_DELAY_BASE_SECONDS * 2 ^ current_retries
  match retryAfterHeader with
  | some h => if pyIsDigit h then max wait_time (h.toNat?.getD 0) else wait_time
  | none => wait_time

/-- Observable outcome of one `make_api_request` call: the returned value,
the total number of HTTP requests issued (the initial one plus retries),
the backoff sleeps performed, and whether a shape-mismatch was logged. -/
structure CallOutcome (α : Type) where
  result : Option (ApiValue α)
  requests : Nat
  waits : List Nat
  shapeError : Bool

/-- `make_api_request` (lines 462-571).  A 2xx response is decoded and
validated; an `HTTPError` with status 429 and `current_retries <
MAX_RETRIES` sleeps the computed backoff and re-issues the same request
with `current_retries + 1`; every other error class (429 with retries
exhausted, other HTTP errors, timeout, request exception) returns `None`
with no retry. -/
def make_api_request {α : Type} (respond : Nat → ApiResponse)
    (response_model response_list_model : Option (Json → Except String α))
    (current_retries : Nat) : CallOutcome α :=
  match respond current_retries with
  | .success body =>
      let v := validateResponse body response_model response_list_model
      ⟨v.1, 1, [], v.2⟩
  | .httpError status retryAfter =>
      if h : status = 429 ∧ current_retries < MAX_RETRIES then
        let wait_time := waitTimeFor current_retries retryAfter
        let rest := make_api_request respond response_model response_list_model
          (current_retries + 1)
        ⟨rest.result, rest.requests + 1, wait_time :: rest.waits, rest.shapeError⟩
      else
        ⟨none, 1, [], false⟩
  | .timeout => ⟨none, 1, [], false⟩
  | .requestError => ⟨none, 1, [], false⟩
termination_by MAX_RETRIES - current_retries
decreasing_by
  obtain ⟨-, h2⟩ := h
  omega

theorem make_api_request_all429 {α : Type} (respond : Nat → ApiResponse)
    (ra : Nat → Option String)
    (rm lm : Option (Json → Except String α))
    (hr : ∀ n, respond n = ApiResponse.httpError 429 (ra n)) :
    ∀ (k cur : Nat), MAX_RETRIES - cur = k → cur ≤ MAX_RETRIES →
      make_api_request respond rm lm cur =
        ⟨none, MAX_RETRIES + 1 - cur,
         (List.range' cur (MAX_RETRIES - cur)).map (fun n => waitTimeFor n (ra n)),
         false⟩ := by
  intro k
  induction k with
  | zero =>
    intro cur hk hle
    have hc : cur = MAX_RETRIES := by omega
    subst hc
    unfold make_api_request
    split
    · rename_i body heq
      rw [hr MAX_RETRIES] at heq
      cases heq
    · rename_i status retryAfter heq
      rw [hr MAX_RETRIES] at heq
      cases heq
      rw [dif_neg (by simp)]
      simp
    · rename_i heq
      rw [hr MAX_RETRIES] at heq
      cases heq
    · rename_i heq
      rw [hr MAX_RETRIES] at heq
      cases heq
  | succ k ih =>
    intro cur hk hle
    have hlt : cur < MAX_RETRIES := by omega
    unfold make_api_request
    split
    · rename_i body heq
      rw [hr cur] at heq
      cases heq
    · rename_i status retryAfter heq
      rw [hr cur] at heq
      cases heq
      rw [dif_pos ⟨rfl, hlt⟩]
      rw [ih (cur + 1) (by omega) (by omega)]
      have h₂ : MAX_RETRIES - cur = k + 1 := hk
      have h₃ : MAX_RETRIES - (cur + 1) = k := by omega
      have h₁ : MAX_RETRIES + 1 - (cur + 1) + 1 = MAX_RETRIES + 1 - cur := by omega
      simp only [h₂, h₃, List.range'_succ, List.map_cons, h₁]
    · rename_i heq
      rw [hr cur] at heq
      cases heq
    · rename_i heq
      rw [hr cur] at heq
      cases heq

theorem make_api_request_success {α : Type} (respond : Nat → ApiResponse)
    (rm lm : Option (Json → Except String α)) (body : Json)
    (hresp : respond 0 = ApiResponse.success body) :
    make_api_request respond rm lm 0 =
      ⟨(validateResponse body rm lm).1, 1, [], (validateResponse body rm lm).2⟩ := by
  unfold make_api_request
  simp only [hresp]

theorem make_api_request_non429_error {α : Type} (respond : Nat → ApiResponse)
    (rm lm : Option (Json → Except String α)) (status : Nat) (ra : Option String)
    (hst : status ≠ 429) (hresp : respond 0 = ApiResponse.httpError status ra) :
    make_api_request respond rm lm 0 = ⟨none, 1, [], false⟩ := by
  unfold make_api_request
  simp only [hresp]
  rw [dif_neg (fun hc => hst hc.1)]

theorem make_api_request_timeout {α : Type} (respond : Nat → ApiResponse)
    (rm lm : Option (Json → Except String α))
    (hresp : respond 0 = ApiResponse.timeout) :
    make_api_request respond rm lm 0 = ⟨none, 1, [], false⟩ := by
  unfold make_api_request
  simp only [hresp]

theorem make_api_request_requestError {α : Type} (respond : Nat → ApiResponse)
    (rm lm : Option (Json → Except String α))
    (hresp : respond 0 = ApiResponse.requestError) :
    make_api_request respond rm lm 0 = ⟨none, 1, [], false⟩ := by
  unfold make_api_request
  simp only [hresp]

/-- C2: if the server answers HTTP 429 on the initial attempt and on every
retry, `make_api_request` performs exactly `MAX_RETRIES` retry attempts —
`MAX_RETRIES + 1` requests in total — and then returns `None`; it does not
loop forever. -/
theorem make_api_request_429_exhausted {α : Type} (respond : Nat → ApiResponse)
    (ra : Nat → Option String) (rm lm : Option (Json → Except String α))
    (hr : ∀ n, respond n = ApiResponse.httpError 429 (ra n)) :
    (make_api_request respond rm lm 0).result = none ∧
    (make_api_request respond rm lm 0).requests = MAX_RETRIES + 1 := by
  rw [make_api_request_all429 respond ra rm lm hr MAX_RETRIES 0 (by omega) (by omega)]
  exact ⟨rfl, rfl⟩

/-- C2 witness: a server that always answers 429 without a Retry-After
header. -/
theorem make_api_request_429_exhausted_witness :
    (make_api_request (fun _ => ApiResponse.httpError 429 none)
      (none : Option (Json → Except String Unit)) none 0).result = none ∧
    (make_api_request (fun _ => ApiResponse.httpError 429 none)
      (none : Option (Json → Except String Unit)) none 0).requests = MAX_RETRIES + 1 :=
  make_api_request_429_exhausted _ (fun _ => none) none none (fun _ => rfl)

/-- C6: under sustained 429, retry attempt `n` sleeps
`RETRY_DELAY_BASE_SECONDS * 2 ^ n` when no Retry-After header is present
and `max (RETRY_DELAY_BASE_SECONDS * 2 ^ n) retry_after` when the header
carries a digit string; error classes other than 429 are never
retried. -/
theorem make_api_request_backoff {α : Type} (respond : Nat → ApiResponse)
    (ra : Nat → Option String) (rm lm : Option (Json → Except String α))
    (hr : ∀ n, respond n = ApiResponse.httpError 429 (ra n)) :
    (make_api_request respond rm lm 0).waits =
      (List.range MAX_RETRIES).map (fun n => waitTimeFor n (ra n)) ∧
    (∀ n, waitTimeFor n none = RETRY_DELAY_BASE_SECONDS * 2 ^ n) ∧
    (∀ n s, pyIsDigit s = true →
       waitTimeFor n (some s) =
         max (RETRY_DELAY_BASE_SECONDS * 2 ^ n) (s.toNat?.getD 0)) ∧
    (∀ (respond' : Nat → ApiResponse) (status : Nat) (ra' : Option String),
       status ≠ 429 → respond' 0 = ApiResponse.httpError status ra' →
       make_api_request respond' rm lm 0 = ⟨none, 1, [], false⟩) ∧
    (∀ respond' : Nat → ApiResponse, respond' 0 = ApiResponse.timeout →
       make_api_request respond' rm lm 0 = ⟨none, 1, [], false⟩) ∧
    (∀ respond' : Nat → ApiResponse, respond' 0 = ApiResponse.requestError →
       make_api_request respond' rm lm 0 = ⟨none, 1, [], false⟩) := by
  refine ⟨?_, fun n => rfl, fun n s hs => by simp [waitTimeFor, hs], ?_, ?_, ?_⟩
  · rw [make_api_request_all429 respond ra rm lm hr MAX_RETRIES 0 (by omega) (by omega)]
    rw [List.range_eq_range']
    simp
  · exact fun respond' status ra' hst hresp =>
      make_api_request_non429_error respond' rm lm status ra' hst hresp
  · exact fun respond' hresp => make_api_request_timeout respond' rm lm hresp
  · exact fun respond' hresp => make_api_request_requestError respond' rm lm hresp

/-- C6 witness: a server that always answers 429 with `Retry-After: 60`. -/
theorem make_api_request_backoff_witness :
    (make_api_request (fun _ => ApiResponse.httpError 429 (some "60"))
      (none : Option (Json → Except String Unit)) none 0).waits =
      (List.range MAX_RETRIES).map (fun n => waitTimeFor n (some "60")) ∧
    (∀ n, waitTimeFor n none = RETRY_DELAY_BASE_SECONDS * 2 ^ n) ∧
    (∀ n s, pyIsDigit s = true →
       waitTimeFor n (some s) =
         max (RETRY_DELAY_BASE_SECONDS * 2 ^ n) (s.toNat?.getD 0)) ∧
    (∀ (respond' : Nat → ApiResponse) (status : Nat) (ra' : Option String),
       status ≠ 429 → respond' 0 = ApiResponse.httpError status ra' →
       make_api_request respond' (none : Option (Json → Except String Unit)) none 0 =
         ⟨none, 1, [], false⟩) ∧
    (∀ respond' : Nat → ApiResponse, respond' 0 = ApiResponse.timeout →
       make_api_request respond' (none : Option (Json → Except String Unit)) none 0 =
         ⟨none, 1, [], false⟩) ∧
    (∀ respond' : Nat → ApiResponse, respond' 0 = ApiResponse.requestError →
       make_api_request respond' (none : Option (Json → Except String Unit)) none 0 =
         ⟨none, 1, [], false⟩) :=
  make_api_request_backoff _ (fun _ => some "60") none none (fun _ => rfl)

/-- Orchestrator guard around persistence (lines 1096, 1219):
`if validated_response is not None and db_conn: ...save...`; a `None`
response is only logged and nothing is written. -/
def saveValidatedResponse {α : Type} (resp : Option (ApiValue α)) (t : Table)
    (save : ApiValue α → Table → Table) : Table :=
  match resp with
  | some v => save v t
  | none => t

theorem validateResponse_not_list {α : Type} (body : Json)
    (rm : Option (Json → Except String α)) (f : Json → Except String α)
    (harr : body.isArr = false) :
    (validateResponse body rm (some f)).1 = none ∧
    (body.isNull = false → (validateResponse body rm (some f)).2 = true) := by
  cases body
  case arr items => simp [Json.isArr] at harr
  case null => exact ⟨rfl, fun h => by simp [Json.isNull] at h⟩
  all_goals refine ⟨?_, fun _ => ?_⟩ <;> simp [validateResponse, Json.isNull]

/-- C5: when a list result is expected (`response_list_model` given) but
the decoded payload is not a list, `make_api_request` returns `None`; for
any payload that reaches the validation gate (i.e. is not JSON `null`) the
shape-mismatch error is logged; and the orchestrator writes nothing from a
`None` response, so previously persisted data is untouched. -/
theorem make_api_request_rejects_non_list {α : Type} (respond : Nat → ApiResponse)
    (body : Json) (rm : Option (Json → Except String α))
    (f : Json → Except String α)
    (hresp : respond 0 = ApiResponse.success body)
    (harr : body.isArr = false) :
    (make_api_request respond rm (some f) 0).result = none ∧
    (body.isNull = false → (make_api_request respond rm (some f) 0).shapeError = true) ∧
    (∀ (t : Table) (save : ApiValue α → Table → Table),
       saveValidatedResponse (make_api_request respond rm (some f) 0).result t save = t) := by
  rw [make_api_request_success respond rm (some f) body hresp]
  obtain ⟨h1, h2⟩ := validateResponse_not_list body rm f harr
  exact ⟨h1, h2, fun t save => by simp [saveValidatedResponse, h1]⟩

/-! Pydantic validation of `DeviceTypeSchema` (glonass_schemas.py lines
37-46: two optional string fields, extra keys ignored), used to settle the
list-validation claims on concrete inputs. -/

structure DeviceTypeSchema where
  deviceTypeId : Option String
  deviceTypeName : Option String
deriving DecidableEq, Repr

/-- Lookup in a decoded JSON object. -/
def jsonGet : List (String × Json) → String → Option Json
  | [], _ => none
  | (k, v) :: fs, c => if k = c then some v else jsonGet fs c

/-- Pydantic check of one `Optional[str]` field: absent or JSON null
becomes `None`; a JSON string is accepted; any other type is a
`ValidationError` for this element. -/
def parseOptStrField (fields : List (String × Json)) (k : String) :
    Except String (Option String) :=
  match jsonGet fields k with
  | none => .ok none
  | some .null => .ok none
  | some (.str s) => .ok (some s)
  | some _ => .error ("Input should be a valid string: " ++ k)

/-- `DeviceTypeSchema.model_validate`: the payload must be a JSON object;
each declared field is checked in turn. -/
def DeviceTypeSchema.model_validate (j : Json) : Except String DeviceTypeSchema :=
  match j with
  | .obj fields =>
    match parseOptStrField fields "deviceTypeId" with
    | .error e => .error e
    | .ok tid =>
      match parseOptStrField fields "deviceTypeName" with
      | .error e => .error e
      | .ok tname => .ok ⟨tid, tname⟩
  | _ => .error "Input should be a valid dictionary"

/-- C3 counterexample: a 3-element list response whose middle element has a
mistyped `deviceTypeId` makes `make_api_request` return `None` for the
whole batch — the two well-formed elements are *not* returned, contrary to
the claim that only the offending element is dropped. -/
theorem make_api_request_element_failure_drops_batch :
    (make_api_request
        (fun _ => ApiResponse.success (Json.arr
          [Json.obj [("deviceTypeId", Json.str "1")],
           Json.obj [("deviceTypeId", Json.int 5)],
           Json.obj [("deviceTypeName", Json.str "Tracker")]]))
        none (some DeviceTypeSchema.model_validate) 0).result = none ∧
    (make_api_request
        (fun _ => ApiResponse.success (Json.arr
          [Json.obj [("deviceTypeId", Json.str "1")],
           Json.obj [("deviceTypeId", Json.int 5)],
           Json.obj [("deviceTypeName", Json.str "Tracker")]]))
        none (some DeviceTypeSchema.model_validate) 0).result ≠
      some (ApiValue.many
        [⟨some "1", none⟩, ⟨none, some "Tracker"⟩]) := by
  have h1 : (make_api_request
      (fun _ => ApiResponse.success (Json.arr
        [Json.obj [("deviceTypeId", Json.str "1")],
         Json.obj [("deviceTypeId", Json.int 5)],
         Json.obj [("deviceTypeName", Json.str "Tracker")]]))
      none (some DeviceTypeSchema.model_validate) 0).result = none := by
    rw [make_api_request_success _ none (some DeviceTypeSchema.model_validate) _ rfl]
    rfl
  refine ⟨h1, ?_⟩
  rw [h1]
  simp

theorem validateAll_error_of_mem {α : Type} (f : Json → Except String α)
    (items : List Json) (bad : Json) (hmem : bad ∈ items) (e : String)
    (hbad : f bad = .error e) :
    ∃ e', validateAll f items = .error e' := by
  induction items with
  | nil => cases hmem
  | cons hd tl ih =>
    cases List.mem_cons.mp hmem with
    | inl h =>
      subst h
      exact ⟨e, by simp [validateAll, hbad]⟩
    | inr h =>
      cases hf : f hd with
      | error e'' => exact ⟨e'', by simp [validateAll, hf]⟩
      | ok a =>
        obtain ⟨e', he'⟩ := ih h
        exact ⟨e', by simp [validateAll, hf, he']⟩

/-- C3 amended: element validation of a list response is all-or-nothing —
one failing element makes `make_api_request` return `None` for the whole
batch (the well-formed elements are dropped with it), and the full list of
validated values is returned only when every element validates. -/
theorem make_api_request_list_batchwise {α : Type} (respond : Nat → ApiResponse)
    (items : List Json) (rm : Option (Json → Except String α))
    (f : Json → Except String α)
    (hresp : respond 0 = ApiResponse.success (Json.arr items)) :
    ((∃ bad ∈ items, ∃ e, f bad = Except.error e) →
       (make_api_request respond rm (some f) 0).result = none) ∧
    (∀ vals : List α, validateAll f items = Except.ok vals →
       (make_api_request respond rm (some f) 0).result = some (ApiValue.many vals)) := by
  rw [make_api_request_success respond rm (some f) _ hresp]
  constructor
  · rintro ⟨bad, hmem, e, hbad⟩
    obtain ⟨e', he'⟩ := validateAll_error_of_mem f items bad hmem e hbad
    simp [validateResponse, Json.isNull, he']
  · intro vals hv
    simp [validateResponse, Json.isNull, hv]

/-- C3 amended witness: a batch with one well-formed and one malformed
element is rejected whole; a batch of two well-formed elements is returned
whole. -/
theorem make_api_request_list_batchwise_witness :
    (make_api_request
        (fun _ => ApiResponse.success (Json.arr
          [Json.obj [("deviceTypeId", Json.str "9")],
           Json.obj [("deviceTypeId", Json.bool true)]]))
        none (some DeviceTypeSchema.model_validate) 0).result = none ∧
    (make_api_request
        (fun _ => ApiResponse.success (Json.arr
          [Json.obj [("deviceTypeId", Json.str "9")],
           Json.obj [("deviceTypeName", Json.str "B")]]))
        none (some DeviceTypeSchema.model_validate) 0).result =
      some (ApiValue.many [⟨some "9", none⟩, ⟨none, some "B"⟩]) := by
  constructor
  · exact (make_api_request_list_batchwise _
      [Json.obj [("deviceTypeId", Json.str "9")],
       Json.obj [("deviceTypeId", Json.bool true)]]
      none DeviceTypeSchema.model_validate
      rfl).1 ⟨Json.obj [("deviceTypeId", Json.bool true)], by simp, _, rfl⟩
  · exact (make_api_request_list_batchwise _
      [Json.obj [("deviceTypeId", Json.str "9")],
       Json.obj [("deviceTypeName", Json.str "B")]]
      none DeviceTypeSchema.model_validate
      rfl).2 [⟨some "9", none⟩, ⟨none, some "B"⟩] rfl

/-- C5 witness: an endpoint expected to return a JSON array answers with a
single object instead. -/
theorem make_api_request_rejects_non_list_witness :
    (make_api_request (fun _ => ApiResponse.success (Json.obj [("a", Json.int 1)]))
      none (some DeviceTypeSchema.model_validate) 0).result = none ∧
    ((Json.obj [("a", Json.int 1)]).isNull = false →
      (make_api_request (fun _ => ApiResponse.success (Json.obj [("a", Json.int 1)]))
        none (some DeviceTypeSchema.model_validate) 0).shapeError = true) ∧
    (∀ (t : Table) (save : ApiValue DeviceTypeSchema → Table → Table),
       saveValidatedResponse
         (make_api_request (fun _ => ApiResponse.success (Json.obj [("a", Json.int 1)]))
           none (some DeviceTypeSchema.model_validate) 0).result t save = t) :=
  make_api_request_rejects_non_list _ _ none DeviceTypeSchema.model_validate rfl rfl

/-! ## Entity normalizer: schema records and row construction

Pydantic model instances become structures of `Option`-typed fields;
`model_dump(exclude_none=True)` becomes `dumpFields` over the declared
fields in order, skipping `none` values.  The client accesses several
schema fields (and three whole schema classes) that the schemas revision
committed under `glonass_schemas.py` does not declare; those are modelled
from the spec where noted. -/

/-- A value that may arrive as an integer code or as a string label
(spec §4.2: "a type/status field may arrive as either an integer code or
a string label"). -/
inductive IntOrStr where
  | int (n : Int)
  | str (s : String)
deriving DecidableEq, Repr

/-- Python `str()` of such a value. -/
def iosStr : IntOrStr → String
  | .int n => toString n
  | .str s => s

/-- Python `str()` applied without a `None` guard to an optional value
(`str(None)` is the string `"None"`). -/
def pyStrOptInt : Option Int → String
  | none => "None"
  | some n => toString n

/-- Python `str()` applied without a `None` guard to an optional
int-or-string value. -/
def pyStrOptIos : Option IntOrStr → String
  | none => "None"
  | some u => iosStr u

/-- A Python value that may be `None`, as stored into a row dict. -/
def pyOptVal : Option Val → Val
  | some v => v
  | none => Val.null

def oStr (o : Option String) : Option Val := o.map Val.str
def oInt (o : Option Int) : Option Val := o.map Val.int
def oNum (o : Option ℚ) : Option Val := o.map Val.num
def oBool (o : Option Bool) : Option Val := o.map Val.bool

/-- Python `1 if x else 0` on an `Optional[bool]` source field. -/
def pyBoolInt : Option Bool → Int
  | some true => 1
  | _ => 0

/-- Python truthiness of a `dict.get` result (absent and `None` are falsy,
as are `False`, `0`, and the empty string). -/
def valTruthy : Option Val → Bool
  | none => false
  | some Val.null => false
  | some (Val.bool b) => b
  | some (Val.int n) => n ≠ 0
  | some (Val.num q) => q ≠ 0
  | some (Val.str s) => !s.isEmpty

/-- Python truthiness of a decoded JSON value (used by the
`if sensor.customParams` style guards before `json.dumps`). -/
def jsonTruthy : Json → Bool
  | .null => false
  | .bool b => b
  | .int n => n ≠ 0
  | .num q => q ≠ 0
  | .str s => !s.isEmpty
  | .arr items => !items.isEmpty
  | .obj fields => !fields.isEmpty

def jsonEscape (s : String) : String :=
  s.foldl (fun acc c =>
    acc ++ (if c = '"' then "\\\"" else if c = '\\' then "\\\\"
            else String.singleton c)) ""

mutual

/-- `json.dumps(..., ensure_ascii=False)` on a decoded JSON value. -/
def Json.dump : Json → String
  | .null => "null"
  | .bool true => "true"
  | .bool false => "false"
  | .int n => toString n
  | .num q => toString q
  | .str s => "\"" ++ jsonEscape s ++ "\""
  | .arr items => "[" ++ Json.dumpList items ++ "]"
  | .obj fields => "\x7b" ++ Json.dumpObj fields ++ "\x7d"

def Json.dumpList : List Json → String
  | [] => ""
  | j :: rest =>
    Json.dump j ++ (if rest.isEmpty then "" else ", ") ++ Json.dumpList rest

def Json.dumpObj : List (String × Json) → String
  | [] => ""
  | (k, v) :: rest =>
    "\"" ++ jsonEscape k ++ "\": " ++ Json.dump v ++
      (if rest.isEmpty then "" else ", ") ++ Json.dumpObj rest

end

/-- One field of a `model_dump(exclude_none=True)` result: skipped when the
field value is `None`. -/
def optEntry (k : String) : Option Val → Row
  | some v => [(k, v)]
  | none => []

/-- `model_dump(exclude_none=True)`: declared fields in order, `None`
values skipped. -/
def dumpFields : List (String × Option Val) → Row
  | [] => []
  | (k, v) :: rest => optEntry k v ++ dumpFields rest

theorem getCol_optEntry_append (k : String) (v : Option Val) (r : Row) (c : String) :
    getCol (optEntry k v ++ r) c =
      if k = c then (match v with | some w => some w | none => getCol r c)
      else getCol r c := by
  cases v <;> by_cases h : k = c <;> simp [optEntry, getCol_cons, h]

theorem getCol_optEntry (k : String) (v : Option Val) (c : String) :
    getCol (optEntry k v) c = if k = c then v else none := by
  cases v <;> by_cases h : k = c <;> simp [optEntry, getCol_cons, h]

theorem rowKeys_dumpFields_sublist (l : List (String × Option Val)) :
    List.Sublist (rowKeys (dumpFields l)) (l.map Prod.fst) := by
  induction l with
  | nil => simp [dumpFields, rowKeys]
  | cons hd tl ih =>
    obtain ⟨k, v⟩ := hd
    cases v with
    | none => simpa [dumpFields, optEntry, rowKeys] using ih.cons k
    | some w =>
      simpa [dumpFields, optEntry, rowKeys] using ih.cons₂ k

theorem nodup_rowKeys_dumpFields (l : List (String × Option Val))
    (h : (l.map Prod.fst).Nodup) : (rowKeys (dumpFields l)).Nodup :=
  List.Nodup.sublist (rowKeys_dumpFields_sublist l) h

structure MileageMotohoursPeriodSchema where
  start : Option String
  «end» : Option String
  mileage : Option ℚ
  mileageBegin : Option ℚ
  mileageEnd : Option ℚ
  motohours : Option ℚ
  motohoursBegin : Option ℚ
  motohoursEnd : Option ℚ
  idlingTime : Option ℚ

def MileageMotohoursPeriodSchema.model_dump (p : MileageMotohoursPeriodSchema) : Row :=
  dumpFields [("start", oStr p.start), ("end", oStr p.«end»),
    ("mileage", oNum p.mileage), ("mileageBegin", oNum p.mileageBegin),
    ("mileageEnd", oNum p.mileageEnd), ("motohours", oNum p.motohours),
    ("motohoursBegin", oNum p.motohoursBegin), ("motohoursEnd", oNum p.motohoursEnd),
    ("idlingTime", oNum p.idlingTime)]

structure FuelConsumptionPeriodSchema where
  start : Option String
  «end» : Option String
  fuelLevelStart : Option ℚ
  fuelLevelEnd : Option ℚ
  fuelTankLevelStart : Option ℚ
  fuelTankLevelEnd : Option ℚ
  fuelConsumption : Option ℚ
  fuelConsumptionMove : Option ℚ
  fuelConsumptionFactTank : Option ℚ

def FuelConsumptionPeriodSchema.model_dump (p : FuelConsumptionPeriodSchema) : Row :=
  dumpFields [("start", oStr p.start), ("end", oStr p.«end»),
    ("fuelLevelStart", oNum p.fuelLevelStart), ("fuelLevelEnd", oNum p.fuelLevelEnd),
    ("fuelTankLevelStart", oNum p.fuelTankLevelStart),
    ("fuelTankLevelEnd", oNum p.fuelTankLevelEnd),
    ("fuelConsumption", oNum p.fuelConsumption),
    ("fuelConsumptionMove", oNum p.fuelConsumptionMove),
    ("fuelConsumptionFactTank", oNum p.fuelConsumptionFactTank)]

structure FuelEventSchema where
  event : Option Int
  startDate : Option String
  endDate : Option String
  valueFuel : Option ℚ
  fuelStart : Option ℚ
  fuelEnd : Option ℚ

def FuelEventSchema.model_dump (e : FuelEventSchema) : Row :=
  dumpFields [("event", oInt e.event), ("startDate", oStr e.startDate),
    ("endDate", oStr e.endDate), ("valueFuel", oNum e.valueFuel),
    ("fuelStart", oNum e.fuelStart), ("fuelEnd", oNum e.fuelEnd)]

structure MoveEventSchema where
  mileage : Option ℚ
  eventId : Option Int
  eventName : Option String
  start : Option String
  «end» : Option String
  duration : Option Int

def MoveEventSchema.model_dump (m : MoveEventSchema) : Row :=
  dumpFields [("mileage", oNum m.mileage), ("eventId", oInt m.eventId),
    ("eventName", oStr m.eventName), ("start", oStr m.start),
    ("end", oStr m.«end»), ("duration", oInt m.duration)]

structure StopEventSchema where
  address : Option String
  eventId : Option Int
  eventName : Option String
  start : Option String
  «end» : Option String
  duration : Option Int

def StopEventSchema.model_dump (s : StopEventSchema) : Row :=
  dumpFields [("address", oStr s.address), ("eventId", oInt s.eventId),
    ("eventName", oStr s.eventName), ("start", oStr s.start),
    ("end", oStr s.«end»), ("duration", oInt s.duration)]

structure VehicleMileageMotohoursDataSchema where
  vehicleId : Option Int
  name : Option String
  periods : Option (List MileageMotohoursPeriodSchema)

structure VehicleFuelConsumptionDataSchema where
  vehicleId : Option Int
  name : Option String
  periods : Option (List FuelConsumptionPeriodSchema)

structure VehicleFuelInOutDataSchema where
  start : Option String
  «end» : Option String
  vehicleId : Option Int
  name : Option String
  model : Option String
  fuels : Option (List FuelEventSchema)

structure VehicleMoveStopDataSchema where
  vehicleId : Option Int
  vehicleName : Option String
  moves : Option (List MoveEventSchema)
  stops : Option (List StopEventSchema)

structure DriverInfoSchema where
  name : Option String
  description : Option String
  hiredate : Option String
  chopdate : Option String
  exclusive : Option Bool
  id : Option String
  parentId : Option String
  deleted : Option Bool

def DriverInfoSchema.model_dump (di : DriverInfoSchema) : Row :=
  dumpFields [("name", oStr di.name), ("description", oStr di.description),
    ("hiredate", oStr di.hiredate), ("chopdate", oStr di.chopdate),
    ("exclusive", oBool di.exclusive), ("id", oStr di.id),
    ("parentId", oStr di.parentId), ("deleted", oBool di.deleted)]

structure VehicleCustomFieldSchema where
  id : Option String
  name : Option String
  value : Option Json
  forTooltip : Option Bool

structure VehicleDriverSchema where
  id : Option String
  name : Option String
  isDefault : Option Bool

/-- Modelled from the spec: the `VehicleCMSV6ParametersSchema` class the
client imports is absent from the committed `glonass_schemas.py` revision;
fields follow the client's use of it and the `vehicle_cmsv6_params`
DDL (id, enabled flag, host, login, password). -/
structure VehicleCMSV6ParametersSchema where
  id : Option String
  enabled : Option Bool
  host : Option String
  login : Option String
  password : Option String

def VehicleCMSV6ParametersSchema.model_dump (cms : VehicleCMSV6ParametersSchema) : Row :=
  dumpFields [("id", oStr cms.id), ("enabled", oBool cms.enabled),
    ("host", oStr cms.host), ("login", oStr cms.login),
    ("password", oStr cms.password)]

/-- Modelled from the spec for the fields beyond the committed
`glonass_schemas.py` revision: the client's sensor normalization reads
many attributes (inputNumber, isInverted, ..., medianDegree) that the
committed `VehicleSensorSchema` does not declare, and dispatches on
`sensor.type` being a string name or an integer id (spec §4.2:
polymorphic type field; committed revision declares `Optional[int]`
only). -/
structure VehicleSensorSchema where
  id : Option String
  name : Option String
  type : Option IntOrStr
  inputType : Option Int
  inputNumber : Option Int
  pseudonym : Option String
  isInverted : Option Bool
  disabled : Option Bool
  showInTooltip : Option Bool
  showLastValid : Option Bool
  gradeType : Option Int
  gradesTables : Option (List Json)
  kind : Option String
  color : Option String
  showAsDutOnGraph : Option Bool
  showWithoutIgn : Option Bool
  agrFunction : Option String
  expr : Option String
  customParams : Option Json
  summaryMaxValue : Option IntOrStr
  valueIntervals : Option Json
  disableEmissionsValidation : Option Bool
  unitOfMeasure : Option Int
  medianDegree : Option Int

structure VehicleCountersSchema where
  mileage : Option ℚ
  motohours : Option ℚ
  mileageTime : Option String
  motohoursTime : Option String

/-- Modelled from the spec for the fields beyond the committed
`glonass_schemas.py` revision (IsSackEnabled, seasonal consumption
fields, calc methods, ...): the client builds `main_data` from all of
these.  `vehicleId` is an integer (the `vehicle_details` DDL declares
`INTEGER PRIMARY KEY` and ids are used as integers throughout the
orchestrator). -/
structure VehicleDetailResponseSchema where
  vehicleId : Int
  vehicleGuid : Option String
  name : Option String
  imei : Option String
  deviceTypeId : Option Int
  deviceTypeName : Option String
  sim1 : Option String
  sim2 : Option String
  parentId : Option String
  parentName : Option String
  modelId : Option String
  modelName : Option String
  unitId : Option String
  unitName : Option String
  status : Option Int
  createdAt : Option String
  consumptionPer100Km : Option IntOrStr
  consumptionPerHour : Option IntOrStr
  consumptionIdle : Option IntOrStr
  locationByCellId : Option Bool
  showLineTrackWhenNoCoords : Option Bool
  IsSackEnabled : Option Bool
  dottedLineTrackWhenNoCoords : Option Bool
  consumptionPer100KmSeasonal : Option ℚ
  consumptionPerHourSeasonal : Option ℚ
  consumptionIdleSeasonal : Option ℚ
  consumptionPer100KmSeasonalBegin : Option String
  consumptionPer100KmSeasonalEnd : Option String
  consumptionPerHourSeasonalBegin : Option String
  consumptionPerHourSeasonalEnd : Option String
  consumptionIdleSeasonalBegin : Option String
  consumptionIdleSeasonalEnd : Option String
  mileageCalcMethod : Option IntOrStr
  mileageCoeff : Option ℚ
  highlightSensorGuid : Option String
  motohoursCalcMethod : Option IntOrStr
  counters : Option VehicleCountersSchema

/-- `main_data` construction in `save_vehicle_detail_data` (lines
624-680): dict literal in source order, boolean fields coerced with
`1 if x else 0`, the consumption fields stringified when present,
the calc-method fields stringified unconditionally (`str(None)` is
`"None"`), then the four counter columns added when `counters` is
present. -/
def mainVehicleData (d : VehicleDetailResponseSchema) : Row :=
  let main_data : Row :=
    [("vehicleId", Val.int d.vehicleId),
     ("vehicleGuid", pyOptVal (oStr d.vehicleGuid)),
     ("name", pyOptVal (oStr d.name)),
     ("imei", pyOptVal (oStr d.imei)),
     ("deviceTypeId", pyOptVal (oInt d.deviceTypeId)),
     ("deviceTypeName", pyOptVal (oStr d.deviceTypeName)),
     ("sim1", pyOptVal (oStr d.sim1)),
     ("sim2", pyOptVal (oStr d.sim2)),
     ("parentId", pyOptVal (oStr d.parentId)),
     ("parentName", pyOptVal (oStr d.parentName)),
     ("modelId", pyOptVal (oStr d.modelId)),
     ("modelName", pyOptVal (oStr d.modelName)),
     ("unitId", pyOptVal (oStr d.unitId)),
     ("unitName", pyOptVal (oStr d.unitName)),
     ("status", pyOptVal (oInt d.status)),
     ("createdAt", pyOptVal (oStr d.createdAt)),
     ("consumptionPer100Km",
       match d.consumptionPer100Km with
       | some u => Val.str (iosStr u)
       | none => Val.null),
     ("consumptionPerHour",
       match d.consumptionPerHour with
       | some u => Val.str (iosStr u)
       | none => Val.null),
     ("locationByCellId", Val.int (pyBoolInt d.locationByCellId)),
     ("showLineTrackWhenNoCoords", Val.int (pyBoolInt d.showLineTrackWhenNoCoords)),
     ("IsSackEnabled", Val.int (pyBoolInt d.IsSackEnabled)),
     ("consumptionIdle",
       match d.consumptionIdle with
       | some u => Val.str (iosStr u)
       | none => Val.null),
     ("consumptionPer100KmSeasonal", pyOptVal (oNum d.consumptionPer100KmSeasonal)),
     ("consumptionPerHourSeasonal", pyOptVal (oNum d.consumptionPerHourSeasonal)),
     ("consumptionIdleSeasonal", pyOptVal (oNum d.consumptionIdleSeasonal)),
     ("consumptionPer100KmSeasonalBegin",
       pyOptVal (oStr d.consumptionPer100KmSeasonalBegin)),
     ("consumptionPer100KmSeasonalEnd",
       pyOptVal (oStr d.consumptionPer100KmSeasonalEnd)),
     ("consumptionPerHourSeasonalBegin",
       pyOptVal (oStr d.consumptionPerHourSeasonalBegin)),
     ("consumptionPerHourSeasonalEnd",
       pyOptVal (oStr d.consumptionPerHourSeasonalEnd)),
     ("consumptionIdleSeasonalBegin",
       pyOptVal (oStr d.consumptionIdleSeasonalBegin)),
     ("consumptionIdleSeasonalEnd",
       pyOptVal (oStr d.consumptionIdleSeasonalEnd)),
     ("mileageCalcMethod", Val.str (pyStrOptIos d.mileageCalcMethod)),
     ("mileageCoeff", pyOptVal (oNum d.mileageCoeff)),
     ("dottedLineTrackWhenNoCoords",
       Val.int (pyBoolInt d.dottedLineTrackWhenNoCoords)),
     ("highlightSensorGuid", pyOptVal (oStr d.highlightSensorGuid)),
     ("motohoursCalcMethod", Val.str (pyStrOptIos d.motohoursCalcMethod))]
  match d.counters with
  | none => main_data
  | some c =>
    let main_data := setCol main_data "counter_mileage" (pyOptVal (oNum c.mileage))
    let main_data := setCol main_data "counter_motohours" (pyOptVal (oNum c.motohours))
    let main_data := setCol main_data "counter_mileageTime" (pyOptVal (oStr c.mileageTime))
    setCol main_data "counter_motohoursTime" (pyOptVal (oStr c.motohoursTime))

/-- `cf_data` construction for one custom field (lines 684-696). -/
def normalizeCustomField (vehicleId : Int) (cf : VehicleCustomFieldSchema) : Row :=
  [("vehicleId", Val.int vehicleId),
   ("custom_field_id", pyOptVal (oStr cf.id)),
   ("name", pyOptVal (oStr cf.name)),
   ("value_text",
     match cf.value with
     | some j => Val.str (Json.dump j)
     | none => Val.null),
   ("forTooltip", Val.int (pyBoolInt cf.forTooltip))]

/-- Python dict lookup in the global `SENSOR_TYPE_NAME_TO_ID_MAP`. -/
def mapLookup (map : List (String × Int)) (name : String) : Option Int :=
  (map.find? (fun kv => kv.1 == name)).map (fun kv => kv.2)

/-- Cross-reference resolution for `sensor.type` (lines 700-707): a string
name found in the sensor-type map resolves to its id; an integer passes
through; anything else leaves the foreign key `None`. -/
def sensorTypeIdFk (map : List (String × Int)) (t : Option IntOrStr) : Option Int :=
  match t with
  | some (.str s) =>
    match mapLookup map s with
    | some i => some i
    | none => none
  | some (.int n) => some n
  | none => none

/-- The warning branch (lines 709-712): fired when the foreign key is
`None` although a type was present. -/
def sensorTypeWarning (map : List (String × Int)) (t : Option IntOrStr) : Bool :=
  (sensorTypeIdFk map t).isNone && t.isSome

/-- `sensor_data` construction for one sensor (lines 714-762). -/
def normalizeSensor (map : List (String × Int)) (vehicleId : Int)
    (sensor : VehicleSensorSchema) : Row :=
  [("vehicleId", Val.int vehicleId),
   ("sensor_id", pyOptVal (oStr sensor.id)),
   ("name", pyOptVal (oStr sensor.name)),
   ("type_str",
     match sensor.type with
     | some t => Val.str (iosStr t)
     | none => Val.null),
   ("sensor_type_id", pyOptVal (oInt (sensorTypeIdFk map sensor.type))),
   ("inputType", Val.str (pyStrOptInt sensor.inputType)),
   ("inputNumber", pyOptVal (oInt sensor.inputNumber)),
   ("pseudonym", pyOptVal (oStr sensor.pseudonym)),
   ("isInverted", Val.int (pyBoolInt sensor.isInverted)),
   ("disabled", Val.int (pyBoolInt sensor.disabled)),
   ("showInTooltip", Val.int (pyBoolInt sensor.showInTooltip)),
   ("showLastValid", Val.int (pyBoolInt sensor.showLastValid)),
   ("gradeType", Val.str (pyStrOptInt sensor.gradeType)),
   ("gradesTables_json",
     match sensor.gradesTables with
     | some gts => if gts.isEmpty then Val.null else Val.str (Json.dump (Json.arr gts))
     | none => Val.null),
   ("kind", pyOptVal (oStr sensor.kind)),
   ("color", pyOptVal (oStr sensor.color)),
   ("showAsDutOnGraph", Val.int (pyBoolInt sensor.showAsDutOnGraph)),
   ("showWithoutIgn", Val.int (pyBoolInt sensor.showWithoutIgn)),
   ("agrFunction", pyOptVal (oStr sensor.agrFunction)),
   ("expr", pyOptVal (oStr sensor.expr)),
   ("customParams_json",
     match sensor.customParams with
     | some cp => if jsonTruthy cp then Val.str (Json.dump cp) else Val.null
     | none => Val.null),
   ("summaryMaxValue_text",
     match sensor.summaryMaxValue with
     | some u => Val.str (iosStr u)
     | none => Val.null),
   ("valueIntervals_json",
     match sensor.valueIntervals with
     | some vi => if jsonTruthy vi then Val.str (Json.dump vi) else Val.null
     | none => Val.null),
   ("disableEmissionsValidation", Val.int (pyBoolInt sensor.disableEmissionsValidation)),
   ("unitOfMeasure", pyOptVal (oInt sensor.unitOfMeasure)),
   ("medianDegree", pyOptVal (oInt sensor.medianDegree))]

/-- The sensors loop of `save_vehicle_detail_data` (lines 698-763): one
`insert_data` call into `vehicle_sensors_detail` per sensor. -/
def save_vehicle_detail_sensors (isSqlite : Bool) (map : List (String × Int))
    (vehicleId : Int) (sensors : List VehicleSensorSchema) (t : Table)
    (now : String) : Except String Table :=
  match sensors with
  | [] => .ok t
  | sensor :: rest =>
    match insert_data isSqlite true false "vehicle_sensors_detail" t
        (normalizeSensor map vehicleId sensor) now with
    | .ok o => save_vehicle_detail_sensors isSqlite map vehicleId rest o.table now
    | .error e => .error e

/-- `driver_data` construction for one assigned driver (lines 765-773). -/
def normalizeAssignedDriver (vehicleId : Int) (drv : VehicleDriverSchema) : Row :=
  [("vehicleId", Val.int vehicleId),
   ("driver_id", pyOptVal (oStr drv.id)),
   ("name", pyOptVal (oStr drv.name)),
   ("isDefault", Val.int (pyBoolInt drv.isDefault))]

/-- The Python rename idiom `d[new] = d.pop(old, None)`: read the old
key's value (defaulting to `None`), remove the old key, store the value
under the new key. -/
def popRename (d : Row) (old new : String) : Row :=
  setCol (eraseCol d old) new (pyOptVal (getCol d old))

/-- `cms_data` construction (lines 784-789): dump, add `vehicleId`, rename
`id` to `cms_id` via `pop`, coerce `enabled` through `dict.get`
truthiness. -/
def normalizeCMSV6 (vehicleId : Int) (cms : VehicleCMSV6ParametersSchema) : Row :=
  let d := cms.model_dump
  let d := setCol d "vehicleId" (Val.int vehicleId)
  let d := popRename d "id" "cms_id"
  setCol d "enabled" (Val.int (if valTruthy (getCol d "enabled") then 1 else 0))

/-- `drivers` report normalization in the orchestrator loop (lines
1202-1214): dump, then coerce `exclusive` and `deleted` through
`dict.get` truthiness. -/
def normalizeDriverInfo (di : DriverInfoSchema) : Row :=
  let d := di.model_dump
  let d := setCol d "exclusive" (Val.int (if valTruthy (getCol d "exclusive") then 1 else 0))
  setCol d "deleted" (Val.int (if valTruthy (getCol d "deleted") then 1 else 0))

/-- `mileage_motohours` period flattening (lines 1116-1127): dump, attach
the parent's `vehicleId`, rename `start`/`end` to
`period_start`/`period_end` via `pop`. -/
def normalizeMileagePeriod (item : VehicleMileageMotohoursDataSchema)
    (period : MileageMotohoursPeriodSchema) : Row :=
  let d := period.model_dump
  let d := setCol d "vehicleId" (pyOptVal (oInt item.vehicleId))
  let d := popRename d "start" "period_start"
  popRename d "end" "period_end"

/-- `fuel_consumption` period flattening (lines 1131-1142). -/
def normalizeFuelPeriod (item : VehicleFuelConsumptionDataSchema)
    (period : FuelConsumptionPeriodSchema) : Row :=
  let d := period.model_dump
  let d := setCol d "vehicleId" (pyOptVal (oInt item.vehicleId))
  let d := popRename d "start" "period_start"
  popRename d "end" "period_end"

/-- `fuel_events` flattening (lines 1146-1165): dump, attach the report
period bounds, the parent's `vehicleId` and model, rename `event` to
`event_type` and `startDate`/`endDate` to
`event_startDate`/`event_endDate` via `pop`. -/
def normalizeFuelEvent (item : VehicleFuelInOutDataSchema)
    (fuel_event : FuelEventSchema) : Row :=
  let d := fuel_event.model_dump
  let d := setCol d "report_period_start" (pyOptVal (oStr item.start))
  let d := setCol d "report_period_end" (pyOptVal (oStr item.«end»))
  let d := setCol d "vehicleId" (pyOptVal (oInt item.vehicleId))
  let d := setCol d "vehicleModel" (pyOptVal (oStr item.model))
  let d := popRename d "event" "event_type"
  let d := popRename d "startDate" "event_startDate"
  popRename d "endDate" "event_endDate"

/-- `move_events` flattening (lines 1169-1177). -/
def normalizeMoveEvent (item : VehicleMoveStopDataSchema)
    (move : MoveEventSchema) : Row :=
  let d := move.model_dump
  let d := setCol d "vehicleId" (pyOptVal (oInt item.vehicleId))
  let d := popRename d "start" "event_start"
  popRename d "end" "event_end"

/-- `stop_events` flattening (lines 1178-1186). -/
def normalizeStopEvent (item : VehicleMoveStopDataSchema)
    (stop : StopEventSchema) : Row :=
  let d := stop.model_dump
  let d := setCol d "vehicleId" (pyOptVal (oInt item.vehicleId))
  let d := popRename d "start" "event_start"
  popRename d "end" "event_end"

theorem rowKeys_eraseCol_sublist (r : Row) (k : String) :
    List.Sublist (rowKeys (eraseCol r k)) (rowKeys r) := by
  induction r with
  | nil => simp [eraseCol, rowKeys]
  | cons hd tl ih =>
    obtain ⟨a, b⟩ := hd
    by_cases hak : a = k
    · simp only [eraseCol, if_pos hak, rowKeys]
      exact (List.Sublist.refl _).cons a
    · simpa [eraseCol, hak, rowKeys] using ih.cons₂ a

theorem nodup_rowKeys_eraseCol (r : Row) (k : String)
    (h : (rowKeys r).Nodup) : (rowKeys (eraseCol r k)).Nodup :=
  List.Nodup.sublist (rowKeys_eraseCol_sublist r k) h

theorem getCol_popRename (d : Row) (old new : String)
    (hnd : (rowKeys d).Nodup) (c : String) :
    getCol (popRename d old new) c =
      if new = c then some (pyOptVal (getCol d old))
      else if old = c then none else getCol d c := by
  unfold popRename
  rw [getCol_setCol]
  by_cases hnc : new = c
  · rw [if_pos hnc, if_pos hnc]
  · rw [if_neg hnc, if_neg hnc, getCol_eraseCol_of_nodup _ _ _ hnd]

theorem nodup_rowKeys_popRename (d : Row) (old new : String)
    (hnd : (rowKeys d).Nodup) : (rowKeys (popRename d old new)).Nodup :=
  nodup_rowKeys_setCol _ _ _ (nodup_rowKeys_eraseCol _ _ hnd)

theorem getCol_mm_dump_start (p : MileageMotohoursPeriodSchema) :
    getCol p.model_dump "start" = oStr p.start := by
  cases hx : p.start <;>
    simp [MileageMotohoursPeriodSchema.model_dump, dumpFields,
      getCol_optEntry_append, getCol_optEntry, hx, oStr]

theorem getCol_mm_dump_end (p : MileageMotohoursPeriodSchema) :
    getCol p.model_dump "end" = oStr p.«end» := by
  cases hx : p.«end» <;>
    simp [MileageMotohoursPeriodSchema.model_dump, dumpFields,
      getCol_optEntry_append, getCol_optEntry, hx, oStr]

theorem getCol_fc_dump_start (p : FuelConsumptionPeriodSchema) :
    getCol p.model_dump "start" = oStr p.start := by
  cases hx : p.start <;>
    simp [FuelConsumptionPeriodSchema.model_dump, dumpFields,
      getCol_optEntry_append, getCol_optEntry, hx, oStr]

theorem getCol_fc_dump_end (p : FuelConsumptionPeriodSchema) :
    getCol p.model_dump "end" = oStr p.«end» := by
  cases hx : p.«end» <;>
    simp [FuelConsumptionPeriodSchema.model_dump, dumpFields,
      getCol_optEntry_append, getCol_optEntry, hx, oStr]

theorem getCol_fe_dump_event (e : FuelEventSchema) :
    getCol e.model_dump "event" = oInt e.event := by
  cases hx : e.event <;>
    simp [FuelEventSchema.model_dump, dumpFields, getCol_optEntry_append, getCol_optEntry, hx, oInt]

theorem getCol_fe_dump_startDate (e : FuelEventSchema) :
    getCol e.model_dump "startDate" = oStr e.startDate := by
  cases hx : e.startDate <;>
    simp [FuelEventSchema.model_dump, dumpFields, getCol_optEntry_append, getCol_optEntry, hx, oStr]

theorem getCol_fe_dump_endDate (e : FuelEventSchema) :
    getCol e.model_dump "endDate" = oStr e.endDate := by
  cases hx : e.endDate <;>
    simp [FuelEventSchema.model_dump, dumpFields, getCol_optEntry_append, getCol_optEntry, hx, oStr]

theorem getCol_move_dump_start (m : MoveEventSchema) :
    getCol m.model_dump "start" = oStr m.start := by
  cases hx : m.start <;>
    simp [MoveEventSchema.model_dump, dumpFields, getCol_optEntry_append, getCol_optEntry, hx, oStr]

theorem getCol_move_dump_end (m : MoveEventSchema) :
    getCol m.model_dump "end" = oStr m.«end» := by
  cases hx : m.«end» <;>
    simp [MoveEventSchema.model_dump, dumpFields, getCol_optEntry_append, getCol_optEntry, hx, oStr]

theorem getCol_stop_dump_start (s : StopEventSchema) :
    getCol s.model_dump "start" = oStr s.start := by
  cases hx : s.start <;>
    simp [StopEventSchema.model_dump, dumpFields, getCol_optEntry_append, getCol_optEntry, hx, oStr]

theorem getCol_stop_dump_end (s : StopEventSchema) :
    getCol s.model_dump "end" = oStr s.«end» := by
  cases hx : s.«end» <;>
    simp [StopEventSchema.model_dump, dumpFields, getCol_optEntry_append, getCol_optEntry, hx, oStr]

theorem getCol_di_dump_exclusive (di : DriverInfoSchema) :
    getCol di.model_dump "exclusive" = oBool di.exclusive := by
  cases hx : di.exclusive <;>
    simp [DriverInfoSchema.model_dump, dumpFields, getCol_optEntry_append, getCol_optEntry, hx, oBool]

theorem getCol_di_dump_deleted (di : DriverInfoSchema) :
    getCol di.model_dump "deleted" = oBool di.deleted := by
  cases hx : di.deleted <;>
    simp [DriverInfoSchema.model_dump, dumpFields, getCol_optEntry_append, getCol_optEntry, hx, oBool]

theorem getCol_cms_dump_enabled (cms : VehicleCMSV6ParametersSchema) :
    getCol cms.model_dump "enabled" = oBool cms.enabled := by
  cases hx : cms.enabled <;>
    simp [VehicleCMSV6ParametersSchema.model_dump, dumpFields,
      getCol_optEntry_append, getCol_optEntry, hx, oBool]

/-- C4: a sensor whose `type` is a string name found in the sensor-type
name-to-id map resolves to the mapped id; an integer `type` passes through
directly; a string name missing from the map stores `sensor_type_id` NULL
and fires the warning; in every case the sensors loop still hands the
normalized row to `insert_data` — no hard failure and no skipped row. -/
theorem normalizeSensor_type_resolution
    (map : List (String × Int)) (vehicleId : Int) (sensor : VehicleSensorSchema) :
    (∀ nm i, sensor.type = some (IntOrStr.str nm) → mapLookup map nm = some i →
       getCol (normalizeSensor map vehicleId sensor) "sensor_type_id" =
         some (Val.int i) ∧
       sensorTypeWarning map sensor.type = false) ∧
    (∀ n, sensor.type = some (IntOrStr.int n) →
       getCol (normalizeSensor map vehicleId sensor) "sensor_type_id" =
         some (Val.int n) ∧
       sensorTypeWarning map sensor.type = false) ∧
    (∀ nm, sensor.type = some (IntOrStr.str nm) → mapLookup map nm = none →
       getCol (normalizeSensor map vehicleId sensor) "sensor_type_id" =
         some Val.null ∧
       sensorTypeWarning map sensor.type = true) ∧
    (∀ (isSqlite : Bool) (t : Table) (now : String),
       save_vehicle_detail_sensors isSqlite map vehicleId [sensor] t now =
         Except.ok (applyInsert isSqlite "vehicle_sensors_detail" t
           (setCol (normalizeSensor map vehicleId sensor) "retrieved_at"
             (Val.str now)))) := by
  have hcol : getCol (normalizeSensor map vehicleId sensor) "sensor_type_id" =
      some (pyOptVal (oInt (sensorTypeIdFk map sensor.type))) := by
    simp [normalizeSensor, getCol_cons]
  refine ⟨?_, ?_, ?_, ?_⟩
  · intro nm i ht hl
    constructor
    · rw [hcol, ht]
      simp [sensorTypeIdFk, hl, oInt, pyOptVal]
    · simp [sensorTypeWarning, sensorTypeIdFk, ht, hl]
  · intro n ht
    constructor
    · rw [hcol, ht]
      simp [sensorTypeIdFk, oInt, pyOptVal]
    · simp [sensorTypeWarning, sensorTypeIdFk, ht]
  · intro nm ht hl
    constructor
    · rw [hcol, ht]
      simp [sensorTypeIdFk, hl, oInt, pyOptVal]
    · simp [sensorTypeWarning, sensorTypeIdFk, ht, hl]
  · intro isSqlite t now
    simp [save_vehicle_detail_sensors, insert_data, executeInsert, normalizeSensor]

/-- Fixed test sensor used to instantiate the sensor claims. -/
def testSensor (t : Option IntOrStr) : VehicleSensorSchema :=
  { id := some "s1", name := some "Fuel", type := t, inputType := none,
    inputNumber := none, pseudonym := none, isInverted := none, disabled := none,
    showInTooltip := none, showLastValid := none, gradeType := none,
    gradesTables := none, kind := none, color := none, showAsDutOnGraph := none,
    showWithoutIgn := none, agrFunction := none, expr := none, customParams := none,
    summaryMaxValue := none, valueIntervals := none,
    disableEmissionsValidation := none, unitOfMeasure := none, medianDegree := none }

/-- C4 witness: map `{FuelLevel: 7}`; a sensor with `type: "FuelLevel"`, one
with `type: 7`, one with unknown name `"Unknown"`; the loop writes the
first one's row. -/
theorem normalizeSensor_type_resolution_witness :
    (getCol (normalizeSensor [("FuelLevel", 7)] 1
        (testSensor (some (IntOrStr.str "FuelLevel")))) "sensor_type_id" =
          some (Val.int 7) ∧
      sensorTypeWarning [("FuelLevel", 7)]
        (testSensor (some (IntOrStr.str "FuelLevel"))).type = false) ∧
    (getCol (normalizeSensor [("FuelLevel", 7)] 1
        (testSensor (some (IntOrStr.int 7)))) "sensor_type_id" =
          some (Val.int 7) ∧
      sensorTypeWarning [("FuelLevel", 7)]
        (testSensor (some (IntOrStr.int 7))).type = false) ∧
    (getCol (normalizeSensor [("FuelLevel", 7)] 1
        (testSensor (some (IntOrStr.str "Unknown")))) "sensor_type_id" =
          some Val.null ∧
      sensorTypeWarning [("FuelLevel", 7)]
        (testSensor (some (IntOrStr.str "Unknown"))).type = true) ∧
    (save_vehicle_detail_sensors true [("FuelLevel", 7)] 1
        [testSensor (some (IntOrStr.str "FuelLevel"))] [] "T" =
      Except.ok (applyInsert true "vehicle_sensors_detail" []
        (setCol (normalizeSensor [("FuelLevel", 7)] 1
          (testSensor (some (IntOrStr.str "FuelLevel")))) "retrieved_at"
          (Val.str "T")))) :=
  ⟨(normalizeSensor_type_resolution _ _ _).1 "FuelLevel" 7 rfl rfl,
   (normalizeSensor_type_resolution _ _ _).2.1 7 rfl,
   (normalizeSensor_type_resolution _ _ _).2.2.1 "Unknown" rfl rfl,
   (normalizeSensor_type_resolution _ _ _).2.2.2 true [] "T"⟩

/-- C8: every boolean source field of the normalized records is stored as
the integer 1 when the source value is `true` and the integer 0 otherwise,
absent values included; the stored value is always a `Val.int` 0 or 1,
never a native boolean. -/
theorem normalized_booleans_stored_as_int :
    (∀ d : VehicleDetailResponseSchema,
       getCol (mainVehicleData d) "locationByCellId" =
         some (Val.int (pyBoolInt d.locationByCellId)) ∧
       getCol (mainVehicleData d) "showLineTrackWhenNoCoords" =
         some (Val.int (pyBoolInt d.showLineTrackWhenNoCoords)) ∧
       getCol (mainVehicleData d) "IsSackEnabled" =
         some (Val.int (pyBoolInt d.IsSackEnabled)) ∧
       getCol (mainVehicleData d) "dottedLineTrackWhenNoCoords" =
         some (Val.int (pyBoolInt d.dottedLineTrackWhenNoCoords))) ∧
    (∀ (vid : Int) (cf : VehicleCustomFieldSchema),
       getCol (normalizeCustomField vid cf) "forTooltip" =
         some (Val.int (pyBoolInt cf.forTooltip))) ∧
    (∀ (map : List (String × Int)) (vid : Int) (s : VehicleSensorSchema),
       getCol (normalizeSensor map vid s) "isInverted" =
         some (Val.int (pyBoolInt s.isInverted)) ∧
       getCol (normalizeSensor map vid s) "disabled" =
         some (Val.int (pyBoolInt s.disabled)) ∧
       getCol (normalizeSensor map vid s) "showInTooltip" =
         some (Val.int (pyBoolInt s.showInTooltip)) ∧
       getCol (normalizeSensor map vid s) "showLastValid" =
         some (Val.int (pyBoolInt s.showLastValid)) ∧
       getCol (normalizeSensor map vid s) "showAsDutOnGraph" =
         some (Val.int (pyBoolInt s.showAsDutOnGraph)) ∧
       getCol (normalizeSensor map vid s) "showWithoutIgn" =
         some (Val.int (pyBoolInt s.showWithoutIgn)) ∧
       getCol (normalizeSensor map vid s) "disableEmissionsValidation" =
         some (Val.int (pyBoolInt s.disableEmissionsValidation))) ∧
    (∀ (vid : Int) (drv : VehicleDriverSchema),
       getCol (normalizeAssignedDriver vid drv) "isDefault" =
         some (Val.int (pyBoolInt drv.isDefault))) ∧
    (∀ di : DriverInfoSchema,
       getCol (normalizeDriverInfo di) "exclusive" =
         some (Val.int (pyBoolInt di.exclusive)) ∧
       getCol (normalizeDriverInfo di) "deleted" =
         some (Val.int (pyBoolInt di.deleted))) ∧
    (∀ (vid : Int) (cms : VehicleCMSV6ParametersSchema),
       getCol (normalizeCMSV6 vid cms) "enabled" =
         some (Val.int (pyBoolInt cms.enabled))) ∧
    (∀ b : Option Bool, pyBoolInt b = 0 ∨ pyBoolInt b = 1) := by
  refine ⟨?_, ?_, ?_, ?_, ?_, ?_, ?_⟩
  · intro d
    refine ⟨?_, ?_, ?_, ?_⟩ <;>
      cases hc : d.counters <;>
        simp [mainVehicleData, hc, getCol_setCol, getCol_cons]
  · intro vid cf
    simp [normalizeCustomField, getCol_cons]
  · intro map vid s
    refine ⟨?_, ?_, ?_, ?_, ?_, ?_, ?_⟩ <;> simp [normalizeSensor, getCol_cons]
  · intro vid drv
    simp [normalizeAssignedDriver, getCol_cons]
  · intro di
    have hx : getCol di.model_dump "exclusive" = oBool di.exclusive :=
      getCol_di_dump_exclusive di
    have hd : getCol di.model_dump "deleted" = oBool di.deleted :=
      getCol_di_dump_deleted di
    constructor
    · cases hb : di.exclusive with
      | none =>
        simp [normalizeDriverInfo, getCol_setCol, hx, hb, valTruthy, oBool, pyBoolInt]
      | some b =>
        cases b <;>
          simp [normalizeDriverInfo, getCol_setCol, hx, hb, valTruthy, oBool, pyBoolInt]
    · cases hb : di.deleted with
      | none =>
        simp [normalizeDriverInfo, getCol_setCol, hd, hb, valTruthy, oBool, pyBoolInt]
      | some b =>
        cases b <;>
          simp [normalizeDriverInfo, getCol_setCol, hd, hb, valTruthy, oBool, pyBoolInt]
  · intro vid cms
    have hnd0 : (rowKeys cms.model_dump).Nodup := by
      unfold VehicleCMSV6ParametersSchema.model_dump
      apply nodup_rowKeys_dumpFields
      simp only [List.map_cons, List.map_nil]
      decide
    have hnd1 : (rowKeys (setCol cms.model_dump "vehicleId" (Val.int vid))).Nodup :=
      nodup_rowKeys_setCol _ _ _ hnd0
    have he : getCol cms.model_dump "enabled" = oBool cms.enabled :=
      getCol_cms_dump_enabled cms
    cases hb : cms.enabled with
    | none =>
      simp [normalizeCMSV6, getCol_setCol, getCol_popRename _ _ _ hnd1, he, hb,
        valTruthy, oBool, pyBoolInt]
    | some b =>
      cases b <;>
        simp [normalizeCMSV6, getCol_setCol, getCol_popRename _ _ _ hnd1, he, hb,
          valTruthy, oBool, pyBoolInt]
  · intro b
    cases b with
    | none => exact Or.inl rfl
    | some b =>
      cases b with
      | false => exact Or.inl rfl
      | true => exact Or.inr rfl

/-- C9: the report-flattening loop applies the fixed per-entity renaming —
`start`/`end` become `period_start`/`period_end` for mileage/motohours and
fuel-consumption periods, `event` becomes `event_type` and
`startDate`/`endDate` become `event_startDate`/`event_endDate` for fuel
events, `start`/`end` become `event_start`/`event_end` for move and stop
events — and every flattened child row carries its parent's `vehicleId`. -/
theorem report_flattening_renames :
    (∀ (item : VehicleMileageMotohoursDataSchema)
       (period : MileageMotohoursPeriodSchema),
       getCol (normalizeMileagePeriod item period) "period_start" =
         some (pyOptVal (oStr period.start)) ∧
       getCol (normalizeMileagePeriod item period) "period_end" =
         some (pyOptVal (oStr period.«end»)) ∧
       getCol (normalizeMileagePeriod item period) "start" = none ∧
       getCol (normalizeMileagePeriod item period) "end" = none ∧
       getCol (normalizeMileagePeriod item period) "vehicleId" =
         some (pyOptVal (oInt item.vehicleId))) ∧
    (∀ (item : VehicleFuelConsumptionDataSchema)
       (period : FuelConsumptionPeriodSchema),
       getCol (normalizeFuelPeriod item period) "period_start" =
         some (pyOptVal (oStr period.start)) ∧
       getCol (normalizeFuelPeriod item period) "period_end" =
         some (pyOptVal (oStr period.«end»)) ∧
       getCol (normalizeFuelPeriod item period) "start" = none ∧
       getCol (normalizeFuelPeriod item period) "end" = none ∧
       getCol (normalizeFuelPeriod item period) "vehicleId" =
         some (pyOptVal (oInt item.vehicleId))) ∧
    (∀ (item : VehicleFuelInOutDataSchema) (fuel_event : FuelEventSchema),
       getCol (normalizeFuelEvent item fuel_event) "event_type" =
         some (pyOptVal (oInt fuel_event.event)) ∧
       getCol (normalizeFuelEvent item fuel_event) "event_startDate" =
         some (pyOptVal (oStr fuel_event.startDate)) ∧
       getCol (normalizeFuelEvent item fuel_event) "event_endDate" =
         some (pyOptVal (oStr fuel_event.endDate)) ∧
       getCol (normalizeFuelEvent item fuel_event) "event" = none ∧
       getCol (normalizeFuelEvent item fuel_event) "startDate" = none ∧
       getCol (normalizeFuelEvent item fuel_event) "endDate" = none ∧
       getCol (normalizeFuelEvent item fuel_event) "vehicleId" =
         some (pyOptVal (oInt item.vehicleId))) ∧
    (∀ (item : VehicleMoveStopDataSchema) (move : MoveEventSchema),
       getCol (normalizeMoveEvent item move) "event_start" =
         some (pyOptVal (oStr move.start)) ∧
       getCol (normalizeMoveEvent item move) "event_end" =
         some (pyOptVal (oStr move.«end»)) ∧
       getCol (normalizeMoveEvent item move) "start" = none ∧
       getCol (normalizeMoveEvent item move) "end" = none ∧
       getCol (normalizeMoveEvent item move) "vehicleId" =
         some (pyOptVal (oInt item.vehicleId))) ∧
    (∀ (item : VehicleMoveStopDataSchema) (stop : StopEventSchema),
       getCol (normalizeStopEvent item stop) "event_start" =
         some (pyOptVal (oStr stop.start)) ∧
       getCol (normalizeStopEvent item stop) "event_end" =
         some (pyOptVal (oStr stop.«end»)) ∧
       getCol (normalizeStopEvent item stop) "start" = none ∧
       getCol (normalizeStopEvent item stop) "end" = none ∧
       getCol (normalizeStopEvent item stop) "vehicleId" =
         some (pyOptVal (oInt item.vehicleId))) := by
  refine ⟨?_, ?_, ?_, ?_, ?_⟩
  · intro item period
    have hnd0 : (rowKeys period.model_dump).Nodup := by
      unfold MileageMotohoursPeriodSchema.model_dump
      apply nodup_rowKeys_dumpFields
      simp only [List.map_cons, List.map_nil]
      decide
    have hnd1 : (rowKeys (setCol period.model_dump "vehicleId"
        (pyOptVal (oInt item.vehicleId)))).Nodup := nodup_rowKeys_setCol _ _ _ hnd0
    have hnd2 : (rowKeys (popRename (setCol period.model_dump "vehicleId"
        (pyOptVal (oInt item.vehicleId))) "start" "period_start")).Nodup :=
      nodup_rowKeys_popRename _ _ _ hnd1
    refine ⟨?_, ?_, ?_, ?_, ?_⟩ <;>
      simp [normalizeMileagePeriod, getCol_popRename _ _ _ hnd2,
        getCol_popRename _ _ _ hnd1, getCol_setCol,
        getCol_mm_dump_start, getCol_mm_dump_end]
  · intro item period
    have hnd0 : (rowKeys period.model_dump).Nodup := by
      unfold FuelConsumptionPeriodSchema.model_dump
      apply nodup_rowKeys_dumpFields
      simp only [List.map_cons, List.map_nil]
      decide
    have hnd1 : (rowKeys (setCol period.model_dump "vehicleId"
        (pyOptVal (oInt item.vehicleId)))).Nodup := nodup_rowKeys_setCol _ _ _ hnd0
    have hnd2 : (rowKeys (popRename (setCol period.model_dump "vehicleId"
        (pyOptVal (oInt item.vehicleId))) "start" "period_start")).Nodup :=
      nodup_rowKeys_popRename _ _ _ hnd1
    refine ⟨?_, ?_, ?_, ?_, ?_⟩ <;>
      simp [normalizeFuelPeriod, getCol_popRename _ _ _ hnd2,
        getCol_popRename _ _ _ hnd1, getCol_setCol,
        getCol_fc_dump_start, getCol_fc_dump_end]
  · intro item fuel_event
    have hnd0 : (rowKeys fuel_event.model_dump).Nodup := by
      unfold FuelEventSchema.model_dump
      apply nodup_rowKeys_dumpFields
      simp only [List.map_cons, List.map_nil]
      decide
    have hnd1 : (rowKeys (setCol fuel_event.model_dump "report_period_start"
        (pyOptVal (oStr item.start)))).Nodup := nodup_rowKeys_setCol _ _ _ hnd0
    have hnd2 : (rowKeys (setCol (setCol fuel_event.model_dump
        "report_period_start" (pyOptVal (oStr item.start)))
        "report_period_end" (pyOptVal (oStr item.«end»)))).Nodup :=
      nodup_rowKeys_setCol _ _ _ hnd1
    have hnd3 : (rowKeys (setCol (setCol (setCol fuel_event.model_dump
        "report_period_start" (pyOptVal (oStr item.start)))
        "report_period_end" (pyOptVal (oStr item.«end»)))
        "vehicleId" (pyOptVal (oInt item.vehicleId)))).Nodup :=
      nodup_rowKeys_setCol _ _ _ hnd2
    have hnd4 : (rowKeys (setCol (setCol (setCol (setCol fuel_event.model_dump
        "report_period_start" (pyOptVal (oStr item.start)))
        "report_period_end" (pyOptVal (oStr item.«end»)))
        "vehicleId" (pyOptVal (oInt item.vehicleId)))
        "vehicleModel" (pyOptVal (oStr item.model)))).Nodup :=
      nodup_rowKeys_setCol _ _ _ hnd3
    have hnd5 : (rowKeys (popRename (setCol (setCol (setCol (setCol
        fuel_event.model_dump
        "report_period_start" (pyOptVal (oStr item.start)))
        "report_period_end" (pyOptVal (oStr item.«end»)))
        "vehicleId" (pyOptVal (oInt item.vehicleId)))
        "vehicleModel" (pyOptVal (oStr item.model))) "event" "event_type")).Nodup :=
      nodup_rowKeys_popRename _ _ _ hnd4
    have hnd6 : (rowKeys (popRename (popRename (setCol (setCol (setCol (setCol
        fuel_event.model_dump
        "report_period_start" (pyOptVal (oStr item.start)))
        "report_period_end" (pyOptVal (oStr item.«end»)))
        "vehicleId" (pyOptVal (oInt item.vehicleId)))
        "vehicleModel" (pyOptVal (oStr item.model))) "event" "event_type")
        "startDate" "event_startDate")).Nodup :=
      nodup_rowKeys_popRename _ _ _ hnd5
    refine ⟨?_, ?_, ?_, ?_, ?_, ?_, ?_⟩ <;>
      simp [normalizeFuelEvent, getCol_popRename _ _ _ hnd6,
        getCol_popRename _ _ _ hnd5, getCol_popRename _ _ _ hnd4,
        getCol_setCol, getCol_fe_dump_event, getCol_fe_dump_startDate,
        getCol_fe_dump_endDate]
  · intro item move
    have hnd0 : (rowKeys move.model_dump).Nodup := by
      unfold MoveEventSchema.model_dump
      apply nodup_rowKeys_dumpFields
      simp only [List.map_cons, List.map_nil]
      decide
    have hnd1 : (rowKeys (setCol move.model_dump "vehicleId"
        (pyOptVal (oInt item.vehicleId)))).Nodup := nodup_rowKeys_setCol _ _ _ hnd0
    have hnd2 : (rowKeys (popRename (setCol move.model_dump "vehicleId"
        (pyOptVal (oInt item.vehicleId))) "start" "event_start")).Nodup :=
      nodup_rowKeys_popRename _ _ _ hnd1
    refine ⟨?_, ?_, ?_, ?_, ?_⟩ <;>
      simp [normalizeMoveEvent, getCol_popRename _ _ _ hnd2,
        getCol_popRename _ _ _ hnd1, getCol_setCol,
        getCol_move_dump_start, getCol_move_dump_end]
  · intro item stop
    have hnd0 : (rowKeys stop.model_dump).Nodup := by
      unfold StopEventSchema.model_dump
      apply nodup_rowKeys_dumpFields
      simp only [List.map_cons, List.map_nil]
      decide
    have hnd1 : (rowKeys (setCol stop.model_dump "vehicleId"
        (pyOptVal (oInt item.vehicleId)))).Nodup := nodup_rowKeys_setCol _ _ _ hnd0
    have hnd2 : (rowKeys (popRename (setCol stop.model_dump "vehicleId"
        (pyOptVal (oInt item.vehicleId))) "start" "event_start")).Nodup :=
      nodup_rowKeys_popRename _ _ _ hnd1
    refine ⟨?_, ?_, ?_, ?_, ?_⟩ <;>
      simp [normalizeStopEvent, getCol_popRename _ _ _ hnd2,
        getCol_popRename _ _ _ hnd1, getCol_setCol,
        getCol_stop_dump_start, getCol_stop_dump_end]

theorem insert_data_spec (isSqlite connPresent execFails : Bool)
    (tableName : String) (t : Table) (data : Row) (now : String) :
    ∃ o : InsertOutcome,
      insert_data isSqlite connPresent execFails tableName t data now =
        Except.ok o ∧
      o.callerData = data ∧
      (execFails = true → o.table = t) ∧
      (connPresent = false → o.table = t) ∧
      (data = [] → o.table = t) ∧
      (execFails = false → connPresent = true → data ≠ [] →
         o.table = applyInsert isSqlite tableName t
           (setCol data "retrieved_at" (Val.str now))) := by
  unfold insert_data
  split
  · rename_i hg
    refine ⟨⟨t, data⟩, rfl, rfl, ?_, ?_, ?_, ?_⟩
    · intro _; rfl
    · intro _; rfl
    · intro _; rfl
    · intro _ hcp hde
      rcases hg with hnc | he
      · exact absurd hcp hnc
      · refine absurd ?_ hde
        cases data with
        | nil => rfl
        | cons hd tl => cases he
  · rename_i hg
    push_neg at hg
    obtain ⟨hcp, hne⟩ := hg
    cases execFails with
    | true =>
      refine ⟨⟨t, data⟩, ?_, rfl, ?_, ?_, ?_, ?_⟩
      · simp [executeInsert]
      · intro _; rfl
      · simp [hcp]
      · intro _; rfl
      · intro hef; cases hef
    | false =>
      refine ⟨⟨applyInsert isSqlite tableName t
          (setCol data "retrieved_at" (Val.str now)), data⟩, ?_, rfl, ?_, ?_, ?_, ?_⟩
      · simp [executeInsert]
      · intro hef; cases hef
      · simp [hcp]
      · intro hde
        subst hde
        exact absurd rfl hne
      · intro _ _ _; rfl

/-- A persistence loop over a batch of already-normalized records — the
shape of every save loop in `save_vehicle_detail_data` and the
orchestrator: one `insert_data` call per record, each with its own
failure outcome from the driver.  An `.error` result would mean one row's
exception aborted the batch. -/
def insertRowsLoop (isSqlite : Bool) (tableName : String)
    (execFailsAt : Nat → Bool) (now : String) :
    Table → Nat → List Row → Except String Table
  | t, _, [] => .ok t
  | t, i, r :: rs =>
    match insert_data isSqlite true (execFailsAt i) tableName t r now with
    | .ok o => insertRowsLoop isSqlite tableName execFailsAt now o.table (i + 1) rs
    | .error e => .error e

/-- Reference semantics of the batch loop: rows whose write fails (or that
are empty) leave the table untouched, every other row's statement is
applied. -/
def appliedRows (isSqlite : Bool) (tableName : String)
    (execFailsAt : Nat → Bool) (now : String) :
    Table → Nat → List Row → Table
  | t, _, [] => t
  | t, i, r :: rs =>
    let t' := if execFailsAt i || r.isEmpty then t
              else applyInsert isSqlite tableName t
                (setCol r "retrieved_at" (Val.str now))
    appliedRows isSqlite tableName execFailsAt now t' (i + 1) rs

/-- C7: `insert_data` never propagates an exception to its caller — every
call returns normally (`.ok`), a failing write leaves the table as it was
before the call (on the PostgreSQL path via the rollback of that row's
transaction), and in a batch loop the failing row is the only one lost:
the loop never aborts and all other rows' writes are applied. -/
theorem insert_data_failure_isolated :
    (∀ (isSqlite execFails : Bool) (tableName : String) (t : Table)
       (data : Row) (now : String),
       ∃ o : InsertOutcome,
         insert_data isSqlite true execFails tableName t data now =
           Except.ok o ∧
         (execFails = true → o.table = t)) ∧
    (∀ (isSqlite : Bool) (tableName : String) (execFailsAt : Nat → Bool)
       (now : String) (t : Table) (i : Nat) (rows : List Row),
       insertRowsLoop isSqlite tableName execFailsAt now t i rows =
         Except.ok (appliedRows isSqlite tableName execFailsAt now t i rows)) := by
  constructor
  · intro isSqlite execFails tableName t data now
    obtain ⟨o, ho, _, hfail, _, _, _⟩ :=
      insert_data_spec isSqlite true execFails tableName t data now
    exact ⟨o, ho, hfail⟩
  · intro isSqlite tableName execFailsAt now t i rows
    induction rows generalizing t i with
    | nil => rfl
    | cons r rs ih =>
      obtain ⟨o, ho, _, hfail, _, hempty, hok⟩ :=
        insert_data_spec isSqlite true (execFailsAt i) tableName t r now
      have hstep : o.table =
          if execFailsAt i || r.isEmpty then t
          else applyInsert isSqlite tableName t
            (setCol r "retrieved_at" (Val.str now)) := by
        cases hef : execFailsAt i with
        | true => simp [hef, hfail hef]
        | false =>
          cases hre : r with
          | nil => simp [hempty hre]
          | cons hd tl =>
            simp [hok hef rfl (by rw [hre]; exact List.cons_ne_nil hd tl), hre]
      simp only [insertRowsLoop, ho]
      rw [ih]
      simp only [appliedRows]
      rw [← hstep]

/-- C7 witness: on each dialect path, a failing write of one record leaves
the one-row table intact and returns normally; a two-row batch whose first
write fails still applies the second row's write. -/
theorem insert_data_failure_isolated_witness :
    (∃ o : InsertOutcome,
       insert_data false true true "drivers" [[("id", Val.str "a")]]
         [("id", Val.str "d1")] "T" = Except.ok o ∧
       (true = true → o.table = [[("id", Val.str "a")]])) ∧
    (insertRowsLoop true "drivers" (fun i => i == 0) "T" [] 0
        [[("id", Val.str "d1")], [("id", Val.str "d2")]] =
      Except.ok (appliedRows true "drivers" (fun i => i == 0) "T" [] 0
        [[("id", Val.str "d1")], [("id", Val.str "d2")]])) :=
  ⟨insert_data_failure_isolated.1 false true "drivers" [[("id", Val.str "a")]]
     [("id", Val.str "d1")] "T",
   insert_data_failure_isolated.2 true "drivers" (fun i => i == 0) "T" [] 0
     [[("id", Val.str "d1")], [("id", Val.str "d2")]]⟩

/-- C10: `insert_data` copies the record dict before stamping
`retrieved_at` — the caller's dict is unchanged by the call and the
stamped copy agrees with the caller's record on every other column — and
a call with a null connection or an empty record performs no write and
returns immediately. -/
theorem insert_data_no_mutation_and_guard :
    ∀ (isSqlite connPresent execFails : Bool) (tableName : String)
      (t : Table) (data : Row) (now : String),
      ∃ o : InsertOutcome,
        insert_data isSqlite connPresent execFails tableName t data now =
          Except.ok o ∧
        o.callerData = data ∧
        (connPresent = false → o.table = t) ∧
        (data = [] → o.table = t) ∧
        (∀ c, c ≠ "retrieved_at" →
           getCol (setCol data "retrieved_at" (Val.str now)) c = getCol data c) := by
  intro isSqlite connPresent execFails tableName t data now
  obtain ⟨o, ho, hcaller, _, hconn, hempty, _⟩ :=
    insert_data_spec isSqlite connPresent execFails tableName t data now
  refine ⟨o, ho, hcaller, hconn, hempty, fun c hc => ?_⟩
  rw [getCol_setCol, if_neg (fun h => hc h.symm)]

/-- C10 witness: a call with a null connection and a call with an empty
record both leave the table untouched and the caller's record unchanged. -/
theorem insert_data_no_mutation_and_guard_witness :
    (∃ o : InsertOutcome,
       insert_data true false false "drivers" [[("id", Val.str "a")]]
         [("id", Val.str "d1")] "T" = Except.ok o ∧
       o.callerData = [("id", Val.str "d1")] ∧
       (false = false → o.table = [[("id", Val.str "a")]]) ∧
       ([("id", Val.str "d1")] = ([] : Row) → o.table = [[("id", Val.str "a")]]) ∧
       (∀ c, c ≠ "retrieved_at" →
          getCol (setCol [("id", Val.str "d1")] "retrieved_at" (Val.str "T")) c =
            getCol [("id", Val.str "d1")] c)) ∧
    (∃ o : InsertOutcome,
       insert_data true true false "drivers" [[("id", Val.str "a")]] [] "T" =
         Except.ok o ∧
       o.callerData = ([] : Row) ∧
       (true = false → o.table = [[("id", Val.str "a")]]) ∧
       (([] : Row) = ([] : Row) → o.table = [[("id", Val.str "a")]]) ∧
       (∀ c, c ≠ "retrieved_at" →
          getCol (setCol ([] : Row) "retrieved_at" (Val.str "T")) c =
            getCol ([] : Row) c)) :=
  ⟨insert_data_no_mutation_and_guard true false false "drivers"
     [[("id", Val.str "a")]] [("id", Val.str "d1")] "T",
   insert_data_no_mutation_and_guard true true false "drivers"
     [[("id", Val.str "a")]] [] "T"⟩
